import Mathlib

/-!
# starburstaddon-operator: the `AddonReconciler.Reconcile` convergence pass

A shallow embedding of `controllers/starburstaddon_controller.go`.

* The cluster store (`client.Client`) is external to the repository.  It is a
  record of operations over an arbitrary world state `σ`; every operation
  returns its answer together with the next world state, so a client may fail
  in any pattern (also differently on each call).
* Go `error` values are records holding what `k8serrors.IsNotFound` answers for
  them and their message.
* `[]byte` values of a secret are byte strings, modelled by `String`
  (`string(b)` and `[]byte(s)` are the identity on them).
* The manifests built by the `Deploy*` factories keep their object metadata
  as fields; the literal `Spec` trees are kept as lists of flattened
  `path ↦ value` pairs.
* Log calls have no effect on the store or on the result and are left out.
-/

namespace StarburstAddon

/-! ## Data model -/

/-- The Go types passed to `Get`/`Create`; the type selects the resource kind. -/
inductive Kind where
  | Addon
  | ClusterVersion
  | Secret
  | Prometheus
  | ServiceMonitor
  | PrometheusRule
  | CronJob
  deriving DecidableEq, Repr

/-- Identity of one object in the store: the kind (from the Go type of the
object handed to the client) and the `types.NamespacedName`. -/
structure ObjectKey where
  kind : Kind
  Namespace : String
  Name : String
  deriving DecidableEq, Repr

/-- Model of `metav1.OwnerReference` (the fields identifying the owner). -/
structure OwnerReference where
  Kind : String
  Name : String
  deriving DecidableEq, Repr

/-- Model of `metav1.ObjectMeta`; unset fields hold the Go zero value. -/
structure ObjectMeta where
  Name : String := ""
  Namespace : String := ""
  Labels : List (String × String) := []
  OwnerReferences : List OwnerReference := []
  deriving DecidableEq, Repr

/-- A typed resource object: `Data` is `corev1.Secret.Data`, `Spec` the
flattened spec of the other kinds. -/
structure Object where
  kind : Kind
  Meta : ObjectMeta := {}
  Data : List (String × String) := []
  Spec : List (String × String) := []
  deriving DecidableEq, Repr

/-- The key under which the store files an object. -/
def Object.key (o : Object) : ObjectKey :=
  ⟨o.kind, o.Meta.Namespace, o.Meta.Name⟩

/-- Go map indexing `m[k]` on a `map[string][]byte`: the zero value when the
key is missing. -/
def lookupData (m : List (String × String)) (k : String) : String :=
  match m.find? (fun p => p.1 == k) with
  | some p => p.2
  | none => ""

/-- A Go `error` returned by the client or built by `fmt.Errorf`. -/
structure Err where
  notFound : Bool
  msg : String
  deriving DecidableEq, Repr

/-- Model of `k8serrors.IsNotFound`. -/
def IsNotFound (e : Err) : Bool := e.notFound

/-- Model of `fmt.Errorf(pre + "%v", err)`: a fresh error carrying the text; it
does not wrap `err`, so it is not a NotFound error. -/
def Errorf (pre : String) (e : Err) : Err :=
  ⟨false, pre ++ e.msg⟩

/-- Model of `ctrl.Request`. -/
structure Request where
  Namespace : String
  Name : String
  deriving DecidableEq, Repr

/-- Model of `ctrl.Result`; `RequeueAfter` is a `time.Duration` in nanoseconds. -/
structure Result where
  Requeue : Bool := false
  RequeueAfter : Nat := 0
  deriving DecidableEq, Repr

/-- The Go constant `time.Minute`, in nanoseconds. -/
def Minute : Nat := 60 * 1000000000

/-- Answer of `client.Get`: the object read into the receiver, or the error. -/
inductive GetResult where
  | found (obj : Object)
  | failed (err : Err)
  deriving DecidableEq, Repr

/-- The store operations of `client.Client` over a world state `σ`.  Writes
answer `none` for a nil error. -/
structure Client (σ : Type) where
  Get : ObjectKey → σ → GetResult × σ
  Create : Object → σ → Option Err × σ
  Update : Object → σ → Option Err × σ
  Patch : Object → σ → Option Err × σ
  Delete : Object → σ → Option Err × σ

/-- The package variable `Name`. -/
def Name : String := "starburst"

/-- The package variable `Namespace`. -/
def Namespace : String := "redhat-starburst-operator"

/-! ## Resource factories -/

/-- Model of `DeployCronJob` (source lines 276-329). -/
def DeployCronJob : Object :=
  { kind := .CronJob
    Meta := { Name := Name, Namespace := Namespace }
    Spec :=
      [ ("schedule", "*/1 * * * *"),
        ("failedJobsHistoryLimit", "3"),
        ("jobTemplate.spec.template.spec.serviceAccountName", "addon-operator-controller-manager"),
        ("jobTemplate.spec.template.spec.volumes[0].name", "user-params"),
        ("jobTemplate.spec.template.spec.volumes[0].secret.secretName", "addon-managed-starburst-parameters"),
        ("jobTemplate.spec.template.spec.volumes[0].secret.defaultMode", "0755"),
        ("jobTemplate.spec.template.spec.containers[0].name", "addon"),
        ("jobTemplate.spec.template.spec.containers[0].image", "cmwylie19/kube-argo-base"),
        ("jobTemplate.spec.template.spec.containers[0].command[0]", "sh"),
        ("jobTemplate.spec.template.spec.containers[0].command[1]", "-c"),
        ("jobTemplate.spec.template.spec.containers[0].command[2]",
          "kubectl apply -f /opt/scripts/starburstenterprise.yaml"),
        ("jobTemplate.spec.template.spec.containers[0].volumeMounts[0].name", "user-params"),
        ("jobTemplate.spec.template.spec.containers[0].volumeMounts[0].mountPath", "/opt/scripts"),
        ("jobTemplate.spec.template.spec.containers[0].volumeMounts[0].readOnly", "true"),
        ("jobTemplate.spec.template.spec.restartPolicy", "Never") ] }

/-- Model of `DeployServiceMonitor` (source lines 331-354). -/
def DeployServiceMonitor : Object :=
  { kind := .ServiceMonitor
    Meta := { Name := Name, Namespace := Namespace }
    Spec :=
      [ ("namespaceSelector.matchNames[0]", Namespace),
        ("selector.matchLabels.app", "starburst-enterprise"),
        ("endpoints[0].port", "metrics"),
        ("endpoints[0].interval", "2s") ] }

/-- One alerting rule of `DeployPrometheusRules`, flattened under its path. -/
def alertRule (path alert expr dur summary severity description : String) :
    List (String × String) :=
  [ (path ++ ".alert", alert),
    (path ++ ".expr", expr),
    (path ++ ".for", dur),
    (path ++ ".annotations.summary", summary),
    (path ++ ".annotations.severity", severity),
    (path ++ ".annotations.description", description) ]

/-- One recording rule of `DeployPrometheusRules`, flattened under its path. -/
def recordRule (path record expr : String) : List (String × String) :=
  [ (path ++ ".record", record), (path ++ ".expr", expr) ]

/-- Model of `DeployPrometheusRules` (source lines 356-499). -/
def DeployPrometheusRules : Object :=
  { kind := .PrometheusRule
    Meta := { Name := Name, Namespace := Namespace, Labels := [("app", "starburst")] }
    Spec :=
      [ ("groups[0].name", "starburst_alert_rules") ]
      ++ alertRule "groups[0].rules[0]" "high_starburst_query_mem"
          "starburst_query_mem >= 45158388108" "5m" "High Query Memory" "page"
          "High average memory used by all queries over a given time period"
      ++ alertRule "groups[0].rules[1]" "high_starburst_heap_mem"
          "starburst_heap_mem >= 45631505600" "5m" "High Max Heap Memory" "warn"
          "The max amount of heap memory configured in the JVM aggregated across the entire cluster"
      ++ alertRule "groups[0].rules[2]" "high_starburst_max_query_mem"
          "starburst_max_query_mem >= 94489280512" "5m" "High Heap Memory" "warn"
          "High amount of heap memory used by the JVMs across all cluster nodes"
      ++ alertRule "groups[0].rules[3]" "trino_node_failure"
          "trino_active_nodes <= 1" "5m" "Trino node failure" "page"
          "An active trino node went down"
      ++ alertRule "groups[0].rules[4]" "high_starburst_max_heap_mem"
          "starburst_max_heap_mem >= 94489280512" "5m" "High Max Heap Memory Alert" "acknowledged"
          "The max amount of heap memory configured in the JVM aggregated across the entire cluster"
      ++ alertRule "groups[0].rules[5]" "starburst_instance_down"
          "count(up\x7bendpoint=\"metrics\"\x7d) != 3" "5m" "Starburst instance down" "page"
          "The pods churned"
      ++ alertRule "groups[0].rules[6]" "high_thread_count"
          "sum(thread_count) > 400" "5m" "High Thread Count" "page" "High Thread Count"
      ++ alertRule "groups[0].rules[7]" "JvmMemoryFillingUp"
          ("(sum by (instance)(jvm_memory_bytes_used\x7barea=\"heap\"\x7d) / "
            ++ "sum by (instance)(jvm_memory_bytes_max\x7barea=\"heap\"\x7d)) * 100 > 80")
          "2m" "JVM memory filling up (instance \x7b\x7b $labels.instance \x7d\x7d)" "page"
          ("JVM memory is filling up (> 80%)\n  VALUE = \x7b\x7b $value \x7d\x7d\n"
            ++ "  LABELS = \x7b\x7b $labels \x7d\x7d")
      ++ alertRule "groups[0].rules[8]" "starburst_failed_queries"
          "failed_queries >= 4" "5m" "Queries are failing" "page"
          "In the last 5 mins the failed queries have risen"
      ++ [ ("groups[1].name", "starburst_custom_rules") ]
      ++ recordRule "groups[1].rules[0]" "starburst_query_mem"
          "avg_over_time(jvm_memory_bytes_used\x7bendpoint=\"metrics\"\x7d[5m])"
      ++ recordRule "groups[1].rules[1]" "starburst_max_query_mem"
          "jvm_memory_bytes_max\x7bendpoint=\"metrics\", area=\"heap\"\x7d"
      ++ recordRule "groups[1].rules[2]" "starburst_heap_mem"
          "jvm_memory_bytes_used\x7bendpoint=\"metrics\",area=\"heap\"\x7d"
      ++ recordRule "groups[1].rules[3]" "starburst_max_heap_mem"
          "jvm_memory_bytes_max\x7bendpoint=\"metrics\",area=\"heap\"\x7d" }

/-- Model of `DeployPrometheus` (source lines 501-568). -/
def DeployPrometheus (tokenURL remoteWriteURL clusterID : String) : Object :=
  { kind := .Prometheus
    Meta := { Name := Name, Namespace := Namespace }
    Spec :=
      [ ("ruleSelector.matchLabels.app", "starburst"),
        ("externalLabels.cluster_id", clusterID),
        ("logLevel", "debug"),
        ("remoteWrite[0].writeRelabelConfigs[0].action", "keep"),
        ("remoteWrite[0].writeRelabelConfigs[0].regex",
          "csv_succeeded$|csv_abnormal$|cluster_version$|ALERTS$|subscription_sync_total|"
            ++ "trino_.*$|jvm_heap_memory_used$|node_.*$|namespace_.*$|kube_.*$|cluster.*$|"
            ++ "container_.*$"),
        ("remoteWrite[0].url", remoteWriteURL),
        ("remoteWrite[0].tlsConfig.insecureSkipVerify", "true"),
        ("remoteWrite[0].oauth2.clientId.secret.name", "addon"),
        ("remoteWrite[0].oauth2.clientId.secret.key", "client-id"),
        ("remoteWrite[0].oauth2.clientSecret.name", "addon"),
        ("remoteWrite[0].oauth2.clientSecret.key", "client-secret"),
        ("remoteWrite[0].oauth2.tokenUrl", tokenURL),
        ("serviceMonitorNamespaceSelector.matchLabels.kubernetes.io/metadata.name",
          "redhat-starburst-operator"),
        ("serviceMonitorSelector", ""),
        ("podMonitorSelector", ""),
        ("serviceAccountName", "starburst-enterprise-helm-operator-controller-manager"),
        ("resources.requests.memory", "400Mi") ] }

/-- Model of `DeployLicenseSecret` (source lines 570-583): the license secret, in
the namespace passed in. -/
def DeployLicenseSecret (license ns : String) : Object :=
  { kind := .Secret
    Meta := { Name := "starburst-license", Namespace := ns }
    Data := [ ("starburstdata.license", license) ] }

/-- The `fmt.Sprintf("<metric>{namespace=\"%s\"}", Namespace)` selectors of
`DeployFederationServiceMonitor`. -/
def nsMetric (metric : String) : String :=
  metric ++ "\x7bnamespace=\"" ++ Namespace ++ "\"\x7d"

/-- The `match[]` parameter of `DeployFederationServiceMonitor` (`str1` to
`str32`, in order). -/
def federationMetrics : List String :=
  [ nsMetric "container_memory_working_set_bytes",
    nsMetric "node_namespace_pod_container:container_cpu_usage_seconds_total:sum_irate",
    nsMetric "namespace_workload_pod:kube_pod_owner:relabel",
    nsMetric "kube_pod_container_info",
    nsMetric "kube_pod_status_ready",
    nsMetric "kube_pod_container_status_last_terminated_reason",
    nsMetric "kube_pod_container_status_waiting",
    nsMetric "kube_namespace_status_phase",
    nsMetric "node_namespace_pod:kube_pod_info:",
    nsMetric "kube_service_info",
    nsMetric "cluster:namespace:pod_memory:active:kube_pod_container_resource_limits",
    nsMetric "container_cpu_cfs_throttled_seconds_total",
    nsMetric "container_fs_usage_bytes",
    nsMetric "container_network_receive_bytes_total",
    nsMetric "container_network_transmit_bytes_total",
    nsMetric "kube_deployment_status_replicas_available",
    "kube_node_status_capacity",
    nsMetric "container_memory_usage_bytes",
    nsMetric "kube_pod_container_resource_requests",
    nsMetric "kube_deployment_status_replicas_unavailable",
    nsMetric "kube_persistentvolumeclaim_status_phase",
    nsMetric "container_memory_working_set_bytes",
    nsMetric "kube_pod_container_resource_limits",
    nsMetric "cluster:namespace:pod_cpu:active:kube_pod_container_resource_limits",
    nsMetric "container_network_receive_packets_total",
    nsMetric "container_network_transmit_packets_total",
    nsMetric "kube_running_pod_ready",
    nsMetric "node_namespace_pod:kube_pod_info:",
    nsMetric "container_cpu_usage_seconds_total",
    nsMetric "kube_pod_container_status_restarts_total",
    nsMetric "kube_pod_status_phase",
    nsMetric "cluster:namespace:pod_memory:active:kube_pod_container_resource_requests" ]

/-- Model of `DeployFederationServiceMonitor` (source lines 585-658). -/
def DeployFederationServiceMonitor : Object :=
  { kind := .ServiceMonitor
    Meta := { Name := Name ++ "-federation", Namespace := Namespace }
    Spec :=
      [ ("jobLabel", "openshift-monitoring-federation"),
        ("namespaceSelector.matchNames[0]", "openshift-monitoring"),
        ("selector.matchLabels.app.kubernetes.io/instance", "k8s"),
        ("endpoints[0].bearerTokenFile", "/var/run/secrets/kubernetes.io/serviceaccount/token"),
        ("endpoints[0].port", "web"),
        ("endpoints[0].path", "/federate"),
        ("endpoints[0].interval", "30s"),
        ("endpoints[0].scheme", "https") ]
      ++ federationMetrics.map (fun m => ("endpoints[0].params.match[]", m))
      ++ [ ("endpoints[0].tlsConfig.insecureSkipVerify", "true"),
           ("endpoints[0].tlsConfig.serverName",
             "prometheus-k8s.openshift-monitoring.svc.cluster.local"),
           ("endpoints[0].tlsConfig.caFile",
             "/var/run/secrets/kubernetes.io/serviceaccount/service-ca.crt") ] }

/-! ## The reconcile pass -/

/-- What one `if` statement of the pass does with the control flow: leave
`Reconcile` with a value (`return`), or fall through to the next statement. -/
inductive Flow (σ : Type) where
  | ret (out : (Result × Option Err) × σ)
  | next (s : σ)

/-- Sequencing of statements: a `return` ends the function, otherwise the rest
of the body runs from the state reached. -/
def Flow.andThen {σ : Type} (f : Flow σ) (rest : σ → (Result × Option Err) × σ) :
    (Result × Option Err) × σ :=
  match f with
  | .ret out => out
  | .next s => rest s

/-- Model of `AddonReconciler.Reconcile` (source lines 78-246).  `r` is the
embedded `client.Client`, `s0` the world state at entry; `clusterID` is what
`fetchClusterID()` reads from the package variable `cv`, which is declared
outside this file.  Each `gN` is the answer of one client call: `gN.1` what the
call returned, `gN.2` the world state after it.  The value is the Go pair
`(ctrl.Result, error)` and the world state at return. -/
def Reconcile {σ : Type} (r : Client σ) (clusterID : String) (req : Request) (s0 : σ) :
    (Result × Option Err) × σ :=
  -- Fetch the Addon instance
  let g1 := r.Get ⟨.Addon, req.Namespace, req.Name⟩ s0
  match g1.1 with
  | .failed err =>
    if IsNotFound err then (({}, none), g1.2)
    else (({}, some (Errorf "could not get Addon CR: " err)), g1.2)
  | .found _ =>
  -- Fetch clusterversion instance
  let g2 := r.Get ⟨.ClusterVersion, req.Namespace, req.Name⟩ g1.2
  match g2.1 with
  | .failed err =>
    if IsNotFound err then (({}, none), g2.2)
    else (({}, some (Errorf "could not get ClusterVersion CR: " err)), g2.2)
  | .found _ =>
  -- Fetch User Params Secret
  let g3 := r.Get ⟨.Secret, req.Namespace, "addon-managed-starburst-parameters"⟩ g2.2
  match g3.1 with
  | .failed err =>
    if IsNotFound err then (({ Requeue := true }, none), g3.2)
    else (({ Requeue := true }, some (Errorf "could not get User Params Secret: " err)), g3.2)
  | .found userParams =>
  -- Get or Create starburst-license secret
  let g4 := r.Get ⟨.Secret, req.Namespace, "starburst-license"⟩ g3.2
  match g4.1 with
  | .failed err =>
    if IsNotFound err then
      let licenseSecret :=
        DeployLicenseSecret (lookupData userParams.Data "starburst-license") req.Namespace
      let c4 := r.Create licenseSecret g4.2
      match c4.1 with
      | some err =>
        (({ Requeue := true }, some (Errorf "could not create License Secret: " err)), c4.2)
      | none => (({ Requeue := true }, none), c4.2)
    else (({ Requeue := true }, some (Errorf "could not get License Secret: " err)), g4.2)
  | .found _ =>
  -- Secret
  let g5 := r.Get ⟨.Secret, req.Namespace, "addon"⟩ g4.2
  match g5.1 with
  | .failed err =>
    if IsNotFound err then (({}, some err), g5.2)
    else (({}, some (Errorf "could not get Addon Secret: " err)), g5.2)
  | .found vault =>
  -- Deploy Prometheus
  let g6 := r.Get ⟨.Prometheus, Namespace, Name⟩ g5.2
  match g6.1 with
  | .failed err =>
    if IsNotFound err then
      let prometheus :=
        DeployPrometheus (lookupData vault.Data "token-url")
          (lookupData vault.Data "remote-write-url") clusterID
      let c6 := r.Create prometheus g6.2
      match c6.1 with
      | some err =>
        (({ Requeue := true }, some (Errorf "could not create Prometheus: " err)), c6.2)
      | none => (({ Requeue := true }, none), c6.2)
    else (({ Requeue := true }, some (Errorf "could not get Prometheus: " err)), g6.2)
  | .found _ =>
  -- Deploy ServiceMonitor
  Flow.andThen
    (let g7 := r.Get ⟨.ServiceMonitor, Namespace, Name⟩ g6.2
     match g7.1 with
     | .failed err =>
       if IsNotFound err then
         let c7 := r.Create DeployServiceMonitor g7.2
         match c7.1 with
         | some err =>
           .ret (({ Requeue := true },
             some (Errorf "could not create service monitor: " err)), c7.2)
         | none => .next c7.2
       else .next g7.2
     | .found _ => .next g7.2) fun s7 =>
  -- Deploy Federation ServiceMonitor
  Flow.andThen
    (let g8 := r.Get ⟨.ServiceMonitor, Namespace, Name ++ "-federation"⟩ s7
     match g8.1 with
     | .failed err =>
       if IsNotFound err then
         let c8 := r.Create DeployFederationServiceMonitor g8.2
         match c8.1 with
         | some err =>
           .ret (({ Requeue := true },
             some (Errorf "could not create federation service monitor: " err)), c8.2)
         | none => .next c8.2
       else .next g8.2
     | .found _ => .next g8.2) fun s8 =>
  -- Deploy PrometheusRules
  Flow.andThen
    (let g9 := r.Get ⟨.PrometheusRule, Namespace, Name⟩ s8
     match g9.1 with
     | .failed err =>
       if IsNotFound err then
         let c9 := r.Create DeployPrometheusRules g9.2
         match c9.1 with
         | some err =>
           .ret (({ Requeue := true },
             some (Errorf "could not create Prometheus Rules: " err)), c9.2)
         | none => .next c9.2
       else .next g9.2
     | .found _ => .next g9.2) fun s9 =>
  -- Deploy Operand
  Flow.andThen
    (let g10 := r.Get ⟨.CronJob, Namespace, Name⟩ s9
     match g10.1 with
     | .failed err =>
       if IsNotFound err then
         let c10 := r.Create DeployCronJob g10.2
         match c10.1 with
         | some err =>
           .ret (({ Requeue := true }, some (Errorf "could not create CronJob: " err)), c10.2)
         | none => .next c10.2
       else .next g10.2
     | .found _ => .next g10.2) fun s10 =>
  (({ RequeueAfter := Minute }, none), s10)

/-! ## Observing the store calls of a pass -/

/-- One call made on the client, with the answer it got. -/
inductive Call where
  | get (key : ObjectKey) (res : GetResult)
  | create (obj : Object) (res : Option Err)
  | update (obj : Object) (res : Option Err)
  | patch (obj : Object) (res : Option Err)
  | delete (obj : Object) (res : Option Err)
  deriving DecidableEq, Repr

/-- The client `c` with a log: every operation answers as `c` does and appends
the call and its answer to the log kept beside the world state. -/
def recording {σ : Type} (c : Client σ) : Client (σ × List Call) where
  Get k st := ((c.Get k st.1).1, ((c.Get k st.1).2, st.2 ++ [Call.get k (c.Get k st.1).1]))
  Create o st :=
    ((c.Create o st.1).1, ((c.Create o st.1).2, st.2 ++ [Call.create o (c.Create o st.1).1]))
  Update o st :=
    ((c.Update o st.1).1, ((c.Update o st.1).2, st.2 ++ [Call.update o (c.Update o st.1).1]))
  Patch o st :=
    ((c.Patch o st.1).1, ((c.Patch o st.1).2, st.2 ++ [Call.patch o (c.Patch o st.1).1]))
  Delete o st :=
    ((c.Delete o st.1).1, ((c.Delete o st.1).2, st.2 ++ [Call.delete o (c.Delete o st.1).1]))

/-- One observed invocation of `Reconcile`. -/
structure Run (σ : Type) where
  result : Result
  err : Option Err
  state : σ
  trace : List Call

/-- Invoke `Reconcile` on `c` from world state `s`, logging the store calls. -/
def run {σ : Type} (c : Client σ) (clusterID : String) (req : Request) (s : σ) : Run σ :=
  let out := Reconcile (recording c) clusterID req (s, [])
  { result := out.1.1, err := out.1.2, state := out.2.1, trace := out.2.2 }

/-- The objects passed to `Create` in a trace, in call order. -/
def creates : List Call → List Object
  | [] => []
  | Call.create o _ :: t => o :: creates t
  | _ :: t => creates t

/-! ## A store that keeps what is created -/

/-- A store state: the object filed under each key, if any. -/
abbrev Store := ObjectKey → Option Object

/-- The store holding nothing. -/
def Store.empty : Store := fun _ => none

/-- The store `s` with `o` filed under its key. -/
def Store.put (s : Store) (o : Object) : Store :=
  fun k => if k = o.key then some o else s k

/-- The store `s` without the object under `k`. -/
def Store.remove (s : Store) (k : ObjectKey) : Store :=
  fun k' => if k' = k then none else s k'

/-- The store holding exactly the listed objects (later entries win). -/
def Store.ofList (os : List Object) : Store :=
  os.foldl Store.put Store.empty

/-- The NotFound error a store answers for a missing object. -/
def notFoundErr (k : ObjectKey) : Err := ⟨true, k.Name ++ " not found"⟩

/-- The AlreadyExists error a store answers to a `Create` of a present object. -/
def alreadyExistsErr (k : ObjectKey) : Err := ⟨false, k.Name ++ " already exists"⟩

/-- A store with injected failures: `getFault k` (when set) is the error every
`Get` of `k` answers, `createFault k` the error every `Create` under `k`
answers; a call without fault reads or writes the store, and a successful
`Create` is visible to every later `Get`. -/
def faultyClient (getFault createFault : ObjectKey → Option Err) : Client Store where
  Get k s :=
    match getFault k with
    | some e => (.failed e, s)
    | none =>
      match s k with
      | some o => (.found o, s)
      | none => (.failed (notFoundErr k), s)
  Create o s :=
    match createFault o.key with
    | some e => (some e, s)
    | none =>
      match s o.key with
      | some _ => (some (alreadyExistsErr o.key), s)
      | none => (none, s.put o)
  Update o s :=
    match s o.key with
    | some _ => (none, s.put o)
    | none => (some (notFoundErr o.key), s)
  Patch o s :=
    match s o.key with
    | some _ => (none, s.put o)
    | none => (some (notFoundErr o.key), s)
  Delete o s :=
    match s o.key with
    | some _ => (none, s.remove o.key)
    | none => (some (notFoundErr o.key), s)

/-- The store without failures. -/
def storeClient : Client Store := faultyClient (fun _ => none) (fun _ => none)

/-! ## Keys of the pass -/

/-- Key of the watched Addon of a request. -/
def addonKey (req : Request) : ObjectKey := ⟨.Addon, req.Namespace, req.Name⟩

/-- Key of the ClusterVersion looked up for a request. -/
def clusterVersionKey (req : Request) : ObjectKey := ⟨.ClusterVersion, req.Namespace, req.Name⟩

/-- Key of the user-parameters secret. -/
def userParamsKey (req : Request) : ObjectKey :=
  ⟨.Secret, req.Namespace, "addon-managed-starburst-parameters"⟩

/-- Key of the license secret. -/
def licenseKey (req : Request) : ObjectKey := ⟨.Secret, req.Namespace, "starburst-license"⟩

/-- Key of the pre-existing "addon" secret. -/
def vaultKey (req : Request) : ObjectKey := ⟨.Secret, req.Namespace, "addon"⟩

/-- Key of the Prometheus object. -/
def prometheusKey : ObjectKey := ⟨.Prometheus, Namespace, Name⟩

/-- Key of the primary ServiceMonitor. -/
def serviceMonitorKey : ObjectKey := ⟨.ServiceMonitor, Namespace, Name⟩

/-- Key of the federation ServiceMonitor. -/
def fedServiceMonitorKey : ObjectKey := ⟨.ServiceMonitor, Namespace, Name ++ "-federation"⟩

/-- Key of the PrometheusRule. -/
def prometheusRuleKey : ObjectKey := ⟨.PrometheusRule, Namespace, Name⟩

/-- Key of the CronJob. -/
def cronJobKey : ObjectKey := ⟨.CronJob, Namespace, Name⟩

/-! ## The trailing statements as a loop, and the shape of a pass

Proof devices: `ensure`/`runTail` restate the four trailing `if` statements of
`Reconcile` as a loop, and `Shape` lists the ways a pass can go together with
the calls it makes. `Reconcile` itself does not use them. -/

/-- One trailing `if` statement of `Reconcile` (source lines 185-243), as a
function of the key looked up, the manifest created when it is missing and the
text of the error returned when that create fails. -/
def ensure {σ : Type} (r : Client σ) (key : ObjectKey) (obj : Object) (msg : String) (s : σ) :
    Flow σ :=
  let g := r.Get key s
  match g.1 with
  | .failed err =>
    if IsNotFound err then
      let c := r.Create obj g.2
      match c.1 with
      | some err => .ret (({ Requeue := true }, some (Errorf msg err)), c.2)
      | none => .next c.2
    else .next g.2
  | .found _ => .next g.2

/-- The four trailing resources of the pass, in source order: key, manifest and
text of the create error. -/
def tailSteps : List (ObjectKey × Object × String) :=
  [ (serviceMonitorKey, DeployServiceMonitor, "could not create service monitor: "),
    (fedServiceMonitorKey, DeployFederationServiceMonitor,
      "could not create federation service monitor: "),
    (prometheusRuleKey, DeployPrometheusRules, "could not create Prometheus Rules: "),
    (cronJobKey, DeployCronJob, "could not create CronJob: ") ]

/-- The trailing statements of `Reconcile` as a loop over the resources left,
ending in the final `return ctrl.Result{RequeueAfter: time.Minute}, nil`. -/
def runTail {σ : Type} (r : Client σ) :
    List (ObjectKey × Object × String) → σ → (Result × Option Err) × σ
  | [], s => (({ RequeueAfter := Minute }, none), s)
  | (key, obj, msg) :: rest, s => (ensure r key obj msg s).andThen (runTail r rest)

/-- The calls and the value of the trailing statements for the resources
`steps`: each resource is found, or its lookup fails otherwise than NotFound
(the pass goes on without it), or it is missing and created, or it is missing
and its create fails, which ends the pass. -/
def TailShape : List (ObjectKey × Object × String) → List Call → Result × Option Err → Prop
  | [], tr, out => tr = [] ∧ out = ({ RequeueAfter := Minute }, none)
  | (key, obj, msg) :: rest, tr, out =>
    (∃ o tr', tr = .get key (.found o) :: tr' ∧ TailShape rest tr' out) ∨
    (∃ e tr', IsNotFound e = false ∧ tr = .get key (.failed e) :: tr' ∧
      TailShape rest tr' out) ∨
    (∃ e tr', IsNotFound e = true ∧
      tr = .get key (.failed e) :: .create obj none :: tr' ∧ TailShape rest tr' out) ∨
    (∃ e ce, IsNotFound e = true ∧
      tr = [.get key (.failed e), .create obj (some ce)] ∧
      out = ({ Requeue := true }, some (Errorf msg ce)))

/-- The value returned after a create that answered `res`: requeue, with the
create error (under the given text) when there is one. -/
def afterCreate (msg : String) (res : Option Err) : Result × Option Err :=
  ({ Requeue := true }, res.map (Errorf msg))

/-- The ways one pass for `req` can go: the value it returns and the calls it
makes, in order. -/
inductive Shape (req : Request) (cid : String) : Result × Option Err → List Call → Prop
  | addonMissing (e : Err) (h : IsNotFound e = true) :
    Shape req cid ({}, none) [.get (addonKey req) (.failed e)]
  | addonError (e : Err) (h : IsNotFound e = false) :
    Shape req cid ({}, some (Errorf "could not get Addon CR: " e))
      [.get (addonKey req) (.failed e)]
  | versionMissing (o1 : Object) (e : Err) (h : IsNotFound e = true) :
    Shape req cid ({}, none)
      [.get (addonKey req) (.found o1), .get (clusterVersionKey req) (.failed e)]
  | versionError (o1 : Object) (e : Err) (h : IsNotFound e = false) :
    Shape req cid ({}, some (Errorf "could not get ClusterVersion CR: " e))
      [.get (addonKey req) (.found o1), .get (clusterVersionKey req) (.failed e)]
  | paramsMissing (o1 o2 : Object) (e : Err) (h : IsNotFound e = true) :
    Shape req cid ({ Requeue := true }, none)
      [.get (addonKey req) (.found o1), .get (clusterVersionKey req) (.found o2),
        .get (userParamsKey req) (.failed e)]
  | paramsError (o1 o2 : Object) (e : Err) (h : IsNotFound e = false) :
    Shape req cid ({ Requeue := true }, some (Errorf "could not get User Params Secret: " e))
      [.get (addonKey req) (.found o1), .get (clusterVersionKey req) (.found o2),
        .get (userParamsKey req) (.failed e)]
  | licenseCreate (o1 o2 userParams : Object) (e : Err) (h : IsNotFound e = true)
      (res : Option Err) :
    Shape req cid (afterCreate "could not create License Secret: " res)
      [.get (addonKey req) (.found o1), .get (clusterVersionKey req) (.found o2),
        .get (userParamsKey req) (.found userParams), .get (licenseKey req) (.failed e),
        .create (DeployLicenseSecret (lookupData userParams.Data "starburst-license")
          req.Namespace) res]
  | licenseError (o1 o2 o3 : Object) (e : Err) (h : IsNotFound e = false) :
    Shape req cid ({ Requeue := true }, some (Errorf "could not get License Secret: " e))
      [.get (addonKey req) (.found o1), .get (clusterVersionKey req) (.found o2),
        .get (userParamsKey req) (.found o3), .get (licenseKey req) (.failed e)]
  | vaultMissing (o1 o2 o3 o4 : Object) (e : Err) (h : IsNotFound e = true) :
    Shape req cid ({}, some e)
      [.get (addonKey req) (.found o1), .get (clusterVersionKey req) (.found o2),
        .get (userParamsKey req) (.found o3), .get (licenseKey req) (.found o4),
        .get (vaultKey req) (.failed e)]
  | vaultError (o1 o2 o3 o4 : Object) (e : Err) (h : IsNotFound e = false) :
    Shape req cid ({}, some (Errorf "could not get Addon Secret: " e))
      [.get (addonKey req) (.found o1), .get (clusterVersionKey req) (.found o2),
        .get (userParamsKey req) (.found o3), .get (licenseKey req) (.found o4),
        .get (vaultKey req) (.failed e)]
  | prometheusCreate (o1 o2 o3 o4 vault : Object) (e : Err) (h : IsNotFound e = true)
      (res : Option Err) :
    Shape req cid (afterCreate "could not create Prometheus: " res)
      [.get (addonKey req) (.found o1), .get (clusterVersionKey req) (.found o2),
        .get (userParamsKey req) (.found o3), .get (licenseKey req) (.found o4),
        .get (vaultKey req) (.found vault), .get prometheusKey (.failed e),
        .create (DeployPrometheus (lookupData vault.Data "token-url")
          (lookupData vault.Data "remote-write-url") cid) res]
  | prometheusError (o1 o2 o3 o4 o5 : Object) (e : Err) (h : IsNotFound e = false) :
    Shape req cid ({ Requeue := true }, some (Errorf "could not get Prometheus: " e))
      [.get (addonKey req) (.found o1), .get (clusterVersionKey req) (.found o2),
        .get (userParamsKey req) (.found o3), .get (licenseKey req) (.found o4),
        .get (vaultKey req) (.found o5), .get prometheusKey (.failed e)]
  | trailing (o1 o2 o3 o4 o5 o6 : Object) (tr : List Call) (out : Result × Option Err)
      (h : TailShape tailSteps tr out) :
    Shape req cid out
      (.get (addonKey req) (.found o1) :: .get (clusterVersionKey req) (.found o2) ::
        .get (userParamsKey req) (.found o3) :: .get (licenseKey req) (.found o4) ::
        .get (vaultKey req) (.found o5) :: .get prometheusKey (.found o6) :: tr)

/-! ## Vocabulary of the statements -/

/-- The ten lookups of a complete pass, in source order. -/
def passKeys (req : Request) : List ObjectKey :=
  [ addonKey req, clusterVersionKey req, userParamsKey req, licenseKey req, vaultKey req,
    prometheusKey, serviceMonitorKey, fedServiceMonitorKey, prometheusRuleKey, cronJobKey ]

/-- What successive `Get`s of `keys` answer on client `c` from world state `s`
(each call starts from the state the one before left). -/
def lookups {σ : Type} (c : Client σ) : List ObjectKey → σ → List GetResult
  | [], _ => []
  | k :: ks, s => (c.Get k s).1 :: lookups c ks (c.Get k s).2

/-- The world state after successive `Get`s of `keys` from `s`. -/
def stateAfter {σ : Type} (c : Client σ) : List ObjectKey → σ → σ
  | [], s => s
  | k :: ks, s => stateAfter c ks (c.Get k s).2

/-- The resource a call is about: the key read, or the key of the object written. -/
def Call.key : Call → ObjectKey
  | .get k _ => k
  | .create o _ => o.key
  | .update o _ => o.key
  | .patch o _ => o.key
  | .delete o _ => o.key

/-! ## Sample inputs -/

/-- A request for the add-on in the operator namespace. -/
def sampleReq : Request := ⟨"redhat-starburst-operator", "starburst"⟩

/-- An object of the given kind and name, without content. -/
def blank (kind : Kind) (ns name : String) : Object :=
  { kind := kind, Meta := { Name := name, Namespace := ns } }

/-- The user-parameters secret of `req` with license field `license`. -/
def paramsSecret (req : Request) (license : String) : Object :=
  { kind := .Secret
    Meta := { Name := "addon-managed-starburst-parameters", Namespace := req.Namespace }
    Data := [ ("starburst-license", license) ] }

/-- The pre-existing "addon" secret of `req`, with its two URL fields. -/
def vaultSecret (req : Request) (tokenURL remoteWriteURL : String) : Object :=
  { kind := .Secret
    Meta := { Name := "addon", Namespace := req.Namespace }
    Data := [ ("token-url", tokenURL), ("remote-write-url", remoteWriteURL) ] }

/-- The store holding only the watched Addon and the ClusterVersion. -/
def pairStore (req : Request) : Store :=
  Store.ofList
    [ blank .Addon req.Namespace req.Name, blank .ClusterVersion req.Namespace req.Name ]

/-- The store holding only the watched Addon, the ClusterVersion and the
user-parameters secret with license "ABC123". -/
def bareStore (req : Request) : Store :=
  (pairStore req).put (paramsSecret req "ABC123")

/-- The store `bareStore` with the "addon" secret added. -/
def readyStore (req : Request) (tokenURL remoteWriteURL : String) : Store :=
  (bareStore req).put (vaultSecret req tokenURL remoteWriteURL)

/-- The store holding everything a pass looks up. -/
def fullStore (req : Request) : Store :=
  Store.ofList
    [ blank .Addon req.Namespace req.Name, blank .ClusterVersion req.Namespace req.Name,
      paramsSecret req "ABC123", DeployLicenseSecret "ABC123" req.Namespace,
      vaultSecret req "https://sso/token" "https://rw/receive",
      DeployPrometheus "https://sso/token" "https://rw/receive" "cluster-1",
      DeployServiceMonitor, DeployFederationServiceMonitor, DeployPrometheusRules,
      DeployCronJob ]

/-- The store holding what steps 1-6 of a pass look up (Addon, ClusterVersion,
user parameters, license secret, "addon" secret, Prometheus) and none of the
four trailing resources. -/
def sixStore (req : Request) : Store :=
  Store.ofList
    [ blank .Addon req.Namespace req.Name, blank .ClusterVersion req.Namespace req.Name,
      paramsSecret req "ABC123", DeployLicenseSecret "ABC123" req.Namespace,
      vaultSecret req "https://sso/token" "https://rw/receive",
      DeployPrometheus "https://sso/token" "https://rw/receive" "cluster-1" ]

/-- The error injected into the `Create` of the primary ServiceMonitor. -/
def deniedErr : Err := ⟨false, "admission webhook denied the request"⟩

/-- A store on which every `Create` of the primary ServiceMonitor fails and
nothing else does. -/
def denyingClient : Client Store :=
  faultyClient (fun _ => none) (fun k => if k = serviceMonitorKey then some deniedErr else none)

/-- The world state after `n` successive passes for `req` on client `c`,
starting from `s` (nothing else touches the store in between). -/
def afterPasses {σ : Type} (c : Client σ) (cid : String) (req : Request) : Nat → σ → σ
  | 0, s => s
  | n + 1, s => afterPasses c cid req n (run c cid req s).state

/-- The store `readyStore` with the license secret that the first pass creates. -/
def licensedStore (req : Request) (tokenURL remoteWriteURL : String) : Store :=
  (readyStore req tokenURL remoteWriteURL).put (DeployLicenseSecret "ABC123" req.Namespace)

/-- The store `licensedStore` with the Prometheus object that the second pass
creates. -/
def monitoredStore (req : Request) (tokenURL remoteWriteURL cid : String) : Store :=
  (licensedStore req tokenURL remoteWriteURL).put (DeployPrometheus tokenURL remoteWriteURL cid)

/-- The store `monitoredStore` with the four objects that the third pass creates. -/
def convergedStore (req : Request) (tokenURL remoteWriteURL cid : String) : Store :=
  ((((monitoredStore req tokenURL remoteWriteURL cid).put DeployServiceMonitor).put
    DeployFederationServiceMonitor).put DeployPrometheusRules).put DeployCronJob

/-! ## Monitors over a trace (proof devices) -/

/-- A call that reads or creates (no `Update`, `Patch` or `Delete`). -/
def Call.isReadOrCreate : Call → Bool
  | .get _ _ => true
  | .create _ _ => true
  | _ => false

/-- Left-to-right check that every `Create` comes directly after a `Get` of the
same key that answered NotFound; `prev` is the call before the list. -/
def createsGuarded : Option Call → List Call → Prop
  | _, [] => True
  | prev, c :: t =>
    (match c with
      | .create o _ => ∃ e, prev = some (.get o.key (.failed e)) ∧ IsNotFound e = true
      | _ => True) ∧
    createsGuarded (some c) t

/-- Left-to-right check that every call selected by `need` has a call selected
by `ok` strictly before it; `seen` tells whether one came before the list. -/
def precededBy (need ok : Call → Bool) : Bool → List Call → Bool
  | _, [] => true
  | seen, c :: t => (!need c || seen) && precededBy need ok (seen || ok c) t

/-- Selects a `Create` under key `k`. -/
def isCreateOf (k : ObjectKey) : Call → Bool
  | .create o _ => decide (o.key = k)
  | _ => false

/-- Selects a successful `Get` of key `k`. -/
def isFoundGetOf (k : ObjectKey) : Call → Bool
  | .get k' (.found _) => decide (k' = k)
  | _ => false

/-- Keys of the four trailing resources. -/
def tailKeys : List ObjectKey :=
  [serviceMonitorKey, fedServiceMonitorKey, prometheusRuleKey, cronJobKey]

/-- Selects a call (read or write) on one of the four trailing resources. -/
def onTailKey (c : Call) : Bool := decide (c.key ∈ tailKeys)

/-! ## Ownership -/

/-- Model of the controller that `SetupWithManager` builds (source lines
249-274): the kind given to `For` and the kinds given to `Owns`, in order. -/
structure ControllerSetup where
  For : Kind
  Owns : List Kind
  deriving DecidableEq, Repr

/-- Model of `AddonReconciler.SetupWithManager` (source lines 261-273): the
controller is for the Addon and registers ServiceMonitor, Prometheus, Secret
and CronJob as owned kinds. -/
def SetupWithManager : ControllerSetup :=
  { For := .Addon, Owns := [.ServiceMonitor, .Prometheus, .Secret, .CronJob] }

/-- Whether an owner reference names the watched Addon of `req`. -/
def namesAddon (req : Request) (ref : OwnerReference) : Bool :=
  ref.Kind == "Addon" && ref.Name == req.Name

/-- Whether an object carries an owner reference naming the watched Addon of
`req`. -/
def ownedByAddon (req : Request) (o : Object) : Bool :=
  o.Meta.OwnerReferences.any (namesAddon req)

/-! ## A store whose lookups fail -/

/-- A store error other than NotFound. -/
def timeoutErr : Err := ⟨false, "etcdserver: request timed out"⟩

/-- A store on which every `Get` of key `k` fails with `e` and nothing else
fails. -/
def failingGetClient (k : ObjectKey) (e : Err) : Client Store :=
  faultyClient (fun k' => if k' = k then some e else none) (fun _ => none)

/-! ## Convergence on a store without failures -/

/-- Keys of the six dependents of a request: license secret, Prometheus,
ServiceMonitor, federation ServiceMonitor, PrometheusRule and CronJob. -/
def dependentKeys (req : Request) : List ObjectKey :=
  [ licenseKey req, prometheusKey, serviceMonitorKey, fedServiceMonitorKey, prometheusRuleKey,
    cronJobKey ]

/-- Proof device: the store `s` with `o` filed under its key unless the key is
taken. -/
def addMissing (s : Store) (o : Object) : Store :=
  match s o.key with
  | some _ => s
  | none => s.put o

/-- Proof device: every lookup of a complete pass finds an object in `s`. -/
def settled (req : Request) (s : Store) : Prop :=
  ∀ k ∈ passKeys req, s k ≠ none

/-! # Theorems -/

/-! ## Every pass has one of the shapes -/

theorem Flow.ret_andThen {σ : Type} (out : (Result × Option Err) × σ)
    (rest : σ → (Result × Option Err) × σ) : (Flow.ret out).andThen rest = out := rfl

theorem Flow.next_andThen {σ : Type} (s : σ)
    (rest : σ → (Result × Option Err) × σ) : (Flow.next s).andThen rest = rest s := rfl

/-- The trailing loop on a logging client extends the log by calls of the
tail shape and returns the value that goes with them. -/
theorem runTail_shape {σ : Type} (c : Client σ) (steps : List (ObjectKey × Object × String)) :
    ∀ (s : σ) (l : List Call), ∃ tr,
      (runTail (recording c) steps (s, l)).2.2 = l ++ tr ∧
      TailShape steps tr (runTail (recording c) steps (s, l)).1 := by
  induction steps with
  | nil => intro s l; exact ⟨[], by simp [runTail], by simp [runTail, TailShape]⟩
  | cons st rest ih =>
    obtain ⟨key, obj, msg⟩ := st
    intro s l
    simp only [runTail, ensure, recording]
    generalize c.Get key s = a
    obtain ⟨_ | e, s1⟩ := a
    · simp only [Flow.next_andThen]
      obtain ⟨tr, h1, h2⟩ := ih s1 (l ++ [Call.get key (.found _)])
      exact ⟨_ :: tr, by simpa using h1, Or.inl ⟨_, tr, rfl, h2⟩⟩
    · cases hnf : IsNotFound e
      · simp only [hnf, Bool.false_eq_true, if_false, Flow.next_andThen]
        obtain ⟨tr, h1, h2⟩ := ih s1 (l ++ [Call.get key (.failed e)])
        exact ⟨_ :: tr, by simpa using h1, Or.inr (Or.inl ⟨e, tr, hnf, rfl, h2⟩)⟩
      · simp only [hnf, if_true]
        generalize c.Create obj s1 = b
        obtain ⟨_ | ce, s2⟩ := b
        · simp only [Flow.next_andThen]
          obtain ⟨tr, h1, h2⟩ :=
            ih s2 (l ++ [Call.get key (.failed e)] ++ [Call.create obj none])
          exact ⟨_ :: _ :: tr, by simpa using h1,
            Or.inr (Or.inr (Or.inl ⟨e, tr, hnf, rfl, h2⟩))⟩
        · simp only [Flow.ret_andThen]
          exact ⟨[Call.get key (.failed e), Call.create obj (some ce)], by simp,
            Or.inr (Or.inr (Or.inr ⟨e, ce, hnf, rfl, rfl⟩))⟩

/-- Every pass, on every client and from every world state, has one of the
shapes of `Shape`. -/
theorem run_shape {σ : Type} (c : Client σ) (cid : String) (req : Request) (s : σ) :
    Shape req cid ((run c cid req s).result, (run c cid req s).err) (run c cid req s).trace := by
  simp only [run, Reconcile, recording]
  generalize c.Get ⟨.Addon, req.Namespace, req.Name⟩ s = a
  obtain ⟨o1 | e, s⟩ := a
  rotate_left
  · cases hnf : IsNotFound e
    · simpa [hnf, addonKey] using @Shape.addonError req cid e hnf
    · simpa [hnf, addonKey] using @Shape.addonMissing req cid e hnf
  simp only []
  generalize c.Get ⟨.ClusterVersion, req.Namespace, req.Name⟩ s = a
  obtain ⟨o2 | e, s⟩ := a
  rotate_left
  · cases hnf : IsNotFound e
    · simpa [hnf, addonKey, clusterVersionKey] using @Shape.versionError req cid o1 e hnf
    · simpa [hnf, addonKey, clusterVersionKey] using @Shape.versionMissing req cid o1 e hnf
  simp only []
  generalize c.Get ⟨.Secret, req.Namespace, "addon-managed-starburst-parameters"⟩ s = a
  obtain ⟨o3 | e, s⟩ := a
  rotate_left
  · cases hnf : IsNotFound e
    · simpa [hnf, addonKey, clusterVersionKey, userParamsKey] using
        @Shape.paramsError req cid o1 o2 e hnf
    · simpa [hnf, addonKey, clusterVersionKey, userParamsKey] using
        @Shape.paramsMissing req cid o1 o2 e hnf
  simp only []
  generalize c.Get ⟨.Secret, req.Namespace, "starburst-license"⟩ s = a
  obtain ⟨o4 | e, s⟩ := a
  rotate_left
  · cases hnf : IsNotFound e
    · simpa [hnf, addonKey, clusterVersionKey, userParamsKey, licenseKey] using
        @Shape.licenseError req cid o1 o2 o3 e hnf
    · simp only [hnf, if_true]
      generalize c.Create (DeployLicenseSecret (lookupData o3.Data "starburst-license")
        req.Namespace) s = b
      obtain ⟨_ | ce, s⟩ := b
      · simpa [afterCreate, addonKey, clusterVersionKey, userParamsKey, licenseKey] using
          @Shape.licenseCreate req cid o1 o2 o3 e hnf none
      · simpa [afterCreate, addonKey, clusterVersionKey, userParamsKey, licenseKey] using
          @Shape.licenseCreate req cid o1 o2 o3 e hnf (some ce)
  simp only []
  generalize c.Get ⟨.Secret, req.Namespace, "addon"⟩ s = a
  obtain ⟨o5 | e, s⟩ := a
  rotate_left
  · cases hnf : IsNotFound e
    · simpa [hnf, addonKey, clusterVersionKey, userParamsKey, licenseKey, vaultKey] using
        @Shape.vaultError req cid o1 o2 o3 o4 e hnf
    · simpa [hnf, addonKey, clusterVersionKey, userParamsKey, licenseKey, vaultKey] using
        @Shape.vaultMissing req cid o1 o2 o3 o4 e hnf
  simp only []
  generalize c.Get ⟨.Prometheus, Namespace, Name⟩ s = a
  obtain ⟨o6 | e, s⟩ := a
  rotate_left
  · cases hnf : IsNotFound e
    · simpa [hnf, addonKey, clusterVersionKey, userParamsKey, licenseKey, vaultKey,
        prometheusKey] using @Shape.prometheusError req cid o1 o2 o3 o4 o5 e hnf
    · simp only [hnf, if_true]
      generalize c.Create (DeployPrometheus (lookupData o5.Data "token-url")
        (lookupData o5.Data "remote-write-url") cid) s = b
      obtain ⟨_ | ce, s⟩ := b
      · simpa [afterCreate, addonKey, clusterVersionKey, userParamsKey, licenseKey, vaultKey,
          prometheusKey] using @Shape.prometheusCreate req cid o1 o2 o3 o4 o5 e hnf none
      · simpa [afterCreate, addonKey, clusterVersionKey, userParamsKey, licenseKey, vaultKey,
          prometheusKey] using @Shape.prometheusCreate req cid o1 o2 o3 o4 o5 e hnf (some ce)
  simp only []
  obtain ⟨tr, h1, h2⟩ := runTail_shape c tailSteps s
    ([] ++ [Call.get ⟨.Addon, req.Namespace, req.Name⟩ (.found o1)]
      ++ [Call.get ⟨.ClusterVersion, req.Namespace, req.Name⟩ (.found o2)]
      ++ [Call.get ⟨.Secret, req.Namespace, "addon-managed-starburst-parameters"⟩ (.found o3)]
      ++ [Call.get ⟨.Secret, req.Namespace, "starburst-license"⟩ (.found o4)]
      ++ [Call.get ⟨.Secret, req.Namespace, "addon"⟩ (.found o5)]
      ++ [Call.get ⟨.Prometheus, Namespace, Name⟩ (.found o6)])
  have h3 := @Shape.trailing req cid o1 o2 o3 o4 o5 o6 tr (_, _) h2
  simp only [addonKey, clusterVersionKey, userParamsKey, licenseKey, vaultKey, prometheusKey,
    List.nil_append, List.cons_append] at h1 h3
  rw [← h1] at h3
  exact h3

/-! ## Kind and metadata of the manifests -/

theorem kind_DeployPrometheus (t w cid : String) : (DeployPrometheus t w cid).kind = .Prometheus :=
  rfl

theorem meta_DeployPrometheus (t w cid : String) :
    (DeployPrometheus t w cid).Meta = { Name := Name, Namespace := Namespace } := rfl

theorem kind_DeployServiceMonitor : DeployServiceMonitor.kind = .ServiceMonitor := rfl

theorem meta_DeployServiceMonitor :
    DeployServiceMonitor.Meta = { Name := Name, Namespace := Namespace } := rfl

theorem kind_DeployFederationServiceMonitor :
    DeployFederationServiceMonitor.kind = .ServiceMonitor := rfl

theorem meta_DeployFederationServiceMonitor :
    DeployFederationServiceMonitor.Meta
      = { Name := Name ++ "-federation", Namespace := Namespace } := rfl

theorem kind_DeployPrometheusRules : DeployPrometheusRules.kind = .PrometheusRule := rfl

theorem meta_DeployPrometheusRules :
    DeployPrometheusRules.Meta
      = { Name := Name, Namespace := Namespace, Labels := [("app", "starburst")] } := rfl

theorem kind_DeployCronJob : DeployCronJob.kind = .CronJob := rfl

theorem meta_DeployCronJob : DeployCronJob.Meta = { Name := Name, Namespace := Namespace } := rfl

/-! ## Facts about the trailing calls -/

/-- Each trailing step creates the manifest filed under the key it looked up. -/
theorem tailSteps_keys : ∀ st ∈ tailSteps, st.2.1.key = st.1 := by
  intro st hst
  simp only [tailSteps, List.mem_cons, List.mem_singleton, List.not_mem_nil, or_false] at hst
  rcases hst with rfl | rfl | rfl | rfl <;> rfl

/-- The keys of the trailing steps are `tailKeys`. -/
theorem tailSteps_map_fst : tailSteps.map Prod.fst = tailKeys := rfl

/-- The four trailing keys are distinct. -/
theorem tailKeys_nodup : tailKeys.Nodup := by decide

/-- Trailing calls only read and create. -/
theorem TailShape.tail_readOrCreate :
    ∀ (steps : List (ObjectKey × Object × String)) (tr : List Call) (out : Result × Option Err),
      TailShape steps tr out → ∀ call ∈ tr, call.isReadOrCreate = true := by
  intro steps
  induction steps with
  | nil => intro tr out h; simp only [TailShape] at h; simp [h.1]
  | cons st rest ih =>
    obtain ⟨key, obj, msg⟩ := st
    intro tr out h
    simp only [TailShape] at h
    rcases h with ⟨o, tr', rfl, h⟩ | ⟨e, tr', -, rfl, h⟩ | ⟨e, tr', -, rfl, h⟩ | ⟨e, ce, -, rfl, -⟩
    · intro call hc
      rcases List.mem_cons.mp hc with rfl | hc
      · rfl
      · exact ih tr' out h call hc
    · intro call hc
      rcases List.mem_cons.mp hc with rfl | hc
      · rfl
      · exact ih tr' out h call hc
    · intro call hc
      rcases List.mem_cons.mp hc with rfl | hc
      · rfl
      · rcases List.mem_cons.mp hc with rfl | hc
        · rfl
        · exact ih tr' out h call hc
    · intro call hc
      simp only [List.mem_cons, List.mem_singleton, List.not_mem_nil, or_false] at hc
      rcases hc with rfl | rfl <;> rfl

/-- Trailing calls are about the keys of the trailing steps. -/
theorem TailShape.tail_keys :
    ∀ (steps : List (ObjectKey × Object × String)) (tr : List Call) (out : Result × Option Err),
      (∀ st ∈ steps, st.2.1.key = st.1) → TailShape steps tr out →
      ∀ call ∈ tr, call.key ∈ steps.map Prod.fst := by
  intro steps
  induction steps with
  | nil => intro tr out _ h; simp only [TailShape] at h; simp [h.1]
  | cons st rest ih =>
    obtain ⟨key, obj, msg⟩ := st
    intro tr out hk h
    have hk' : ∀ st ∈ rest, st.2.1.key = st.1 := fun st hst => hk st (List.mem_cons_of_mem _ hst)
    have hobj : obj.key = key := hk (key, obj, msg) (List.mem_cons_self _ _)
    simp only [TailShape] at h
    rcases h with ⟨o, tr', rfl, h⟩ | ⟨e, tr', -, rfl, h⟩ | ⟨e, tr', -, rfl, h⟩ | ⟨e, ce, -, rfl, -⟩
    · intro call hc
      rcases List.mem_cons.mp hc with rfl | hc
      · simp [Call.key]
      · exact List.mem_cons_of_mem _ (ih tr' out hk' h call hc)
    · intro call hc
      rcases List.mem_cons.mp hc with rfl | hc
      · simp [Call.key]
      · exact List.mem_cons_of_mem _ (ih tr' out hk' h call hc)
    · intro call hc
      rcases List.mem_cons.mp hc with rfl | hc
      · simp [Call.key]
      · rcases List.mem_cons.mp hc with rfl | hc
        · simp [Call.key, hobj]
        · exact List.mem_cons_of_mem _ (ih tr' out hk' h call hc)
    · intro call hc
      simp only [List.mem_cons, List.mem_singleton, List.not_mem_nil, or_false] at hc
      rcases hc with rfl | rfl <;> simp [Call.key, hobj]

/-- In the trailing calls every `Create` comes directly after the NotFound `Get`
of its key, whatever call came before them. -/
theorem TailShape.tail_guarded :
    ∀ (steps : List (ObjectKey × Object × String)) (tr : List Call) (out : Result × Option Err),
      (∀ st ∈ steps, st.2.1.key = st.1) → TailShape steps tr out →
      ∀ prev, createsGuarded prev tr := by
  intro steps
  induction steps with
  | nil => intro tr out _ h prev; simp only [TailShape] at h; simp [h.1, createsGuarded]
  | cons st rest ih =>
    obtain ⟨key, obj, msg⟩ := st
    intro tr out hk h prev
    have hk' : ∀ st ∈ rest, st.2.1.key = st.1 := fun st hst => hk st (List.mem_cons_of_mem _ hst)
    have hobj : obj.key = key := hk (key, obj, msg) (List.mem_cons_self _ _)
    simp only [TailShape] at h
    rcases h with ⟨o, tr', rfl, h⟩ | ⟨e, tr', -, rfl, h⟩ | ⟨e, tr', hnf, rfl, h⟩ |
      ⟨e, ce, hnf, rfl, -⟩
    · exact ⟨trivial, ih tr' out hk' h _⟩
    · exact ⟨trivial, ih tr' out hk' h _⟩
    · exact ⟨trivial, ⟨e, by rw [hobj], hnf⟩, ih tr' out hk' h _⟩
    · exact ⟨trivial, ⟨e, by rw [hobj], hnf⟩, trivial⟩

/-- In the trailing calls no key whose `Get` succeeded is written, when the
keys of the steps are distinct. -/
theorem TailShape.tail_found_not_created :
    ∀ (steps : List (ObjectKey × Object × String)) (tr : List Call) (out : Result × Option Err),
      (∀ st ∈ steps, st.2.1.key = st.1) → (steps.map Prod.fst).Nodup → TailShape steps tr out →
      ∀ k o, Call.get k (.found o) ∈ tr → ∀ o' res, Call.create o' res ∈ tr → o'.key ≠ k := by
  intro steps
  induction steps with
  | nil => intro tr out _ _ h; simp only [TailShape] at h; simp [h.1]
  | cons st rest ih =>
    obtain ⟨key, obj, msg⟩ := st
    intro tr out hk hnd h k o hget o' res hcr
    have hk' : ∀ st ∈ rest, st.2.1.key = st.1 := fun st hst => hk st (List.mem_cons_of_mem _ hst)
    have hobj : obj.key = key := hk (key, obj, msg) (List.mem_cons_self _ _)
    have hnd' : (rest.map Prod.fst).Nodup := (List.nodup_cons.mp hnd).2
    have hnew : key ∉ rest.map Prod.fst := (List.nodup_cons.mp hnd).1
    simp only [TailShape] at h
    rcases h with ⟨o0, tr', rfl, h⟩ | ⟨e, tr', -, rfl, h⟩ | ⟨e, tr', -, rfl, h⟩ |
      ⟨e, ce, -, rfl, -⟩
    · have hcr' : Call.create o' res ∈ tr' := by simpa using hcr
      have hin := TailShape.tail_keys rest tr' out hk' h _ hcr'
      rcases List.mem_cons.mp hget with heq | hget'
      · injection heq with hkk _
        intro hne
        rw [hkk] at hne
        exact hnew (by simpa [Call.key, hne] using hin)
      · exact ih tr' out hk' hnd' h k o hget' o' res hcr'
    · have hcr' : Call.create o' res ∈ tr' := by simpa using hcr
      have hget' : Call.get k (.found o) ∈ tr' := by simpa using hget
      exact ih tr' out hk' hnd' h k o hget' o' res hcr'
    · have hget' : Call.get k (.found o) ∈ tr' := by simpa using hget
      have hin := TailShape.tail_keys rest tr' out hk' h _ hget'
      rcases List.mem_cons.mp hcr with heq | hcr1
      · cases heq
      · rcases List.mem_cons.mp hcr1 with heq | hcr'
        · injection heq with hoo _
          intro hne
          rw [hoo, hobj] at hne
          rw [hne] at hnew
          exact hnew (by simpa [Call.key] using hin)
        · exact ih tr' out hk' hnd' h k o hget' o' res hcr'
    · simp at hget

/-! ## C1: the watched Addon is gone -/

/-- C1: when the `Get` of the watched Addon answers NotFound, `Reconcile` returns
the empty result (no requeue flag, no requeue delay) with a nil error, and that
`Get` is the only store call of the pass. -/
theorem C1_addon_not_found {σ : Type} (c : Client σ) (cid : String) (req : Request) (s : σ)
    (e : Err) (hget : lookups c [addonKey req] s = [.failed e]) (hnf : IsNotFound e = true) :
    (run c cid req s).result = { Requeue := false, RequeueAfter := 0 } ∧
    (run c cid req s).err = none ∧
    (run c cid req s).trace = [Call.get (addonKey req) (.failed e)] := by
  simp only [lookups, addonKey, List.cons.injEq, and_true] at hget
  simp [run, Reconcile, recording, hget, hnf, addonKey]

/-- C1 at the empty store. -/
theorem C1_addon_not_found_witness :
    lookups storeClient [addonKey sampleReq] Store.empty
        = [.failed (notFoundErr (addonKey sampleReq))] ∧
      IsNotFound (notFoundErr (addonKey sampleReq)) = true ∧
      (run storeClient "cluster-1" sampleReq Store.empty).result
        = { Requeue := false, RequeueAfter := 0 } ∧
      (run storeClient "cluster-1" sampleReq Store.empty).err = none ∧
      (run storeClient "cluster-1" sampleReq Store.empty).trace
        = [Call.get (addonKey sampleReq) (.failed (notFoundErr (addonKey sampleReq)))] :=
  ⟨by rfl, by rfl,
    C1_addon_not_found storeClient "cluster-1" sampleReq Store.empty
      (notFoundErr (addonKey sampleReq)) (by rfl) (by rfl)⟩

/-! ## C7, C8, C9, C10: single paths of the pass -/

/-- C7: when the Addon and the ClusterVersion are fetched and the `Get` of the
"addon-managed-starburst-parameters" secret answers NotFound, `Reconcile`
returns a requeue result with a nil error and issues no `Create` (its calls are
the three lookups). -/
theorem C7_params_not_found {σ : Type} (c : Client σ) (cid : String) (req : Request) (s : σ)
    (o1 o2 : Object) (e : Err)
    (hget : lookups c [addonKey req, clusterVersionKey req, userParamsKey req] s
      = [.found o1, .found o2, .failed e])
    (hnf : IsNotFound e = true) :
    (run c cid req s).result = { Requeue := true, RequeueAfter := 0 } ∧
    (run c cid req s).err = none ∧
    creates (run c cid req s).trace = [] ∧
    (run c cid req s).trace =
      [ .get (addonKey req) (.found o1), .get (clusterVersionKey req) (.found o2),
        .get (userParamsKey req) (.failed e) ] := by
  simp only [lookups, addonKey, clusterVersionKey, userParamsKey, List.cons.injEq,
    and_true] at hget
  obtain ⟨h1, h2, h3⟩ := hget
  simp [run, Reconcile, recording, h1, h2, h3, hnf, addonKey, clusterVersionKey,
    userParamsKey, creates]

/-- C7 at a store holding only the Addon and the ClusterVersion. -/
theorem C7_params_not_found_witness :
    lookups storeClient
        [addonKey sampleReq, clusterVersionKey sampleReq, userParamsKey sampleReq]
        (pairStore sampleReq)
      = [ .found (blank .Addon "redhat-starburst-operator" "starburst"),
          .found (blank .ClusterVersion "redhat-starburst-operator" "starburst"),
          .failed (notFoundErr (userParamsKey sampleReq)) ] ∧
    IsNotFound (notFoundErr (userParamsKey sampleReq)) = true ∧
    (run storeClient "cluster-1" sampleReq (pairStore sampleReq)).result
      = { Requeue := true, RequeueAfter := 0 } ∧
    (run storeClient "cluster-1" sampleReq (pairStore sampleReq)).err = none ∧
    creates (run storeClient "cluster-1" sampleReq (pairStore sampleReq)).trace = [] :=
  have h := C7_params_not_found storeClient "cluster-1" sampleReq (pairStore sampleReq)
    (blank .Addon "redhat-starburst-operator" "starburst")
    (blank .ClusterVersion "redhat-starburst-operator" "starburst")
    (notFoundErr (userParamsKey sampleReq)) (by decide) (by rfl)
  ⟨by decide, by rfl, h.1, h.2.1, h.2.2.1⟩

/-- C8: when all ten lookups succeed, `Reconcile` issues no `Create` and returns
`RequeueAfter` of one minute with a nil error, whatever objects the lookups
returned. -/
theorem C8_all_present {σ : Type} (c : Client σ) (cid : String) (req : Request) (s : σ)
    (o1 o2 o3 o4 o5 o6 o7 o8 o9 o10 : Object)
    (hget : lookups c (passKeys req) s
      = [.found o1, .found o2, .found o3, .found o4, .found o5, .found o6, .found o7,
          .found o8, .found o9, .found o10]) :
    (run c cid req s).result = { Requeue := false, RequeueAfter := Minute } ∧
    Minute = 60000000000 ∧
    (run c cid req s).err = none ∧
    creates (run c cid req s).trace = [] ∧
    (run c cid req s).trace =
      [ .get (addonKey req) (.found o1), .get (clusterVersionKey req) (.found o2),
        .get (userParamsKey req) (.found o3), .get (licenseKey req) (.found o4),
        .get (vaultKey req) (.found o5), .get prometheusKey (.found o6),
        .get serviceMonitorKey (.found o7), .get fedServiceMonitorKey (.found o8),
        .get prometheusRuleKey (.found o9), .get cronJobKey (.found o10) ] := by
  simp only [passKeys, lookups, addonKey, clusterVersionKey, userParamsKey, licenseKey,
    vaultKey, prometheusKey, serviceMonitorKey, fedServiceMonitorKey, prometheusRuleKey,
    cronJobKey, List.cons.injEq, and_true] at hget
  obtain ⟨h1, h2, h3, h4, h5, h6, h7, h8, h9, h10⟩ := hget
  refine ⟨?_, by decide, ?_, ?_, ?_⟩ <;>
  simp [run, Reconcile, recording, Flow.andThen, h1, h2, h3, h4, h5, h6, h7, h8, h9, h10,
    addonKey, clusterVersionKey, userParamsKey, licenseKey, vaultKey, prometheusKey,
    serviceMonitorKey, fedServiceMonitorKey, prometheusRuleKey, cronJobKey, creates]

/-- C8 at a store holding all ten objects. -/
theorem C8_all_present_witness :
    lookups storeClient (passKeys sampleReq) (fullStore sampleReq)
      = [ .found (blank .Addon "redhat-starburst-operator" "starburst"),
          .found (blank .ClusterVersion "redhat-starburst-operator" "starburst"),
          .found (paramsSecret sampleReq "ABC123"),
          .found (DeployLicenseSecret "ABC123" "redhat-starburst-operator"),
          .found (vaultSecret sampleReq "https://sso/token" "https://rw/receive"),
          .found (DeployPrometheus "https://sso/token" "https://rw/receive" "cluster-1"),
          .found DeployServiceMonitor, .found DeployFederationServiceMonitor,
          .found DeployPrometheusRules, .found DeployCronJob ] ∧
    (run storeClient "cluster-1" sampleReq (fullStore sampleReq)).result
      = { Requeue := false, RequeueAfter := 60000000000 } ∧
    (run storeClient "cluster-1" sampleReq (fullStore sampleReq)).err = none ∧
    creates (run storeClient "cluster-1" sampleReq (fullStore sampleReq)).trace = [] :=
  have h := C8_all_present storeClient "cluster-1" sampleReq (fullStore sampleReq)
    (blank .Addon "redhat-starburst-operator" "starburst")
    (blank .ClusterVersion "redhat-starburst-operator" "starburst")
    (paramsSecret sampleReq "ABC123")
    (DeployLicenseSecret "ABC123" "redhat-starburst-operator")
    (vaultSecret sampleReq "https://sso/token" "https://rw/receive")
    (DeployPrometheus "https://sso/token" "https://rw/receive" "cluster-1")
    DeployServiceMonitor DeployFederationServiceMonitor DeployPrometheusRules DeployCronJob
    (by rfl)
  ⟨by rfl, h.1, h.2.2.1, h.2.2.2.1⟩

/-- C9: when steps 1-3 succeed and the `Get` of the "starburst-license" secret
answers NotFound, `Reconcile` issues exactly one `Create`, of a secret named
"starburst-license" in the namespace of the request whose data is the
"starburst-license" field of the user-parameters secret just fetched; the pass
ends with that call (no later resource is looked up), and when the `Create`
succeeds the value is a requeue result with a nil error. -/
theorem C9_license_created {σ : Type} (c : Client σ) (cid : String) (req : Request) (s : σ)
    (o1 o2 userParams : Object) (e : Err)
    (hget : lookups c [addonKey req, clusterVersionKey req, userParamsKey req, licenseKey req] s
      = [.found o1, .found o2, .found userParams, .failed e])
    (hnf : IsNotFound e = true) :
    ∃ (secret : Object) (res : Option Err),
      secret.kind = .Secret ∧ secret.Meta.Name = "starburst-license" ∧
      secret.Meta.Namespace = req.Namespace ∧
      secret.Data = [("starburstdata.license", lookupData userParams.Data "starburst-license")] ∧
      (run c cid req s).trace =
        [ .get (addonKey req) (.found o1), .get (clusterVersionKey req) (.found o2),
          .get (userParamsKey req) (.found userParams), .get (licenseKey req) (.failed e),
          .create secret res ] ∧
      creates (run c cid req s).trace = [secret] ∧
      (res = none →
        (run c cid req s).result = { Requeue := true, RequeueAfter := 0 } ∧
        (run c cid req s).err = none) := by
  simp only [lookups, addonKey, clusterVersionKey, userParamsKey, licenseKey, List.cons.injEq,
    and_true] at hget
  obtain ⟨h1, h2, h3, h4⟩ := hget
  refine ⟨DeployLicenseSecret (lookupData userParams.Data "starburst-license") req.Namespace,
    (c.Create (DeployLicenseSecret (lookupData userParams.Data "starburst-license")
      req.Namespace) (stateAfter c
        [addonKey req, clusterVersionKey req, userParamsKey req, licenseKey req] s)).1,
    rfl, rfl, rfl, rfl, ?_, ?_, ?_⟩
  · simp only [run, Reconcile, recording, h1, h2, h3, h4, hnf, if_true, stateAfter, addonKey,
      clusterVersionKey, userParamsKey, licenseKey]
    split <;> simp_all
  · simp only [run, Reconcile, recording, h1, h2, h3, h4, hnf, if_true, stateAfter, addonKey,
      clusterVersionKey, userParamsKey, licenseKey]
    split <;> simp_all [creates]
  · intro hres
    simp only [stateAfter, addonKey, clusterVersionKey, userParamsKey, licenseKey] at hres
    simp [run, Reconcile, recording, h1, h2, h3, h4, hnf, hres]

/-- C9 at the store holding the Addon, the ClusterVersion and the user
parameters with license "ABC123". -/
theorem C9_license_created_witness :
    lookups storeClient
        [addonKey sampleReq, clusterVersionKey sampleReq, userParamsKey sampleReq,
          licenseKey sampleReq] (bareStore sampleReq)
      = [ .found (blank .Addon "redhat-starburst-operator" "starburst"),
          .found (blank .ClusterVersion "redhat-starburst-operator" "starburst"),
          .found (paramsSecret sampleReq "ABC123"),
          .failed (notFoundErr (licenseKey sampleReq)) ] ∧
    IsNotFound (notFoundErr (licenseKey sampleReq)) = true ∧
    ∃ (secret : Object) (res : Option Err),
      secret.kind = .Secret ∧ secret.Meta.Name = "starburst-license" ∧
      secret.Meta.Namespace = "redhat-starburst-operator" ∧
      secret.Data = [("starburstdata.license", "ABC123")] ∧
      (run storeClient "cluster-1" sampleReq (bareStore sampleReq)).trace =
        [ .get (addonKey sampleReq) (.found (blank .Addon "redhat-starburst-operator" "starburst")),
          .get (clusterVersionKey sampleReq)
            (.found (blank .ClusterVersion "redhat-starburst-operator" "starburst")),
          .get (userParamsKey sampleReq) (.found (paramsSecret sampleReq "ABC123")),
          .get (licenseKey sampleReq) (.failed (notFoundErr (licenseKey sampleReq))),
          .create secret res ] ∧
      creates (run storeClient "cluster-1" sampleReq (bareStore sampleReq)).trace = [secret] ∧
      (res = none →
        (run storeClient "cluster-1" sampleReq (bareStore sampleReq)).result
          = { Requeue := true, RequeueAfter := 0 } ∧
        (run storeClient "cluster-1" sampleReq (bareStore sampleReq)).err = none) :=
  ⟨by rfl, by rfl,
    C9_license_created storeClient "cluster-1" sampleReq (bareStore sampleReq)
      (blank .Addon "redhat-starburst-operator" "starburst")
      (blank .ClusterVersion "redhat-starburst-operator" "starburst")
      (paramsSecret sampleReq "ABC123") (notFoundErr (licenseKey sampleReq)) (by rfl) (by rfl)⟩

/-- C10: when steps 1-4 succeed with the license secret present and the `Get` of
the pre-existing "addon" secret fails (NotFound or any other error), `Reconcile`
returns a non-nil error with a result that asks for no requeue, issues no
`Create` and looks up none of the later resources (its calls are the five
lookups). -/
theorem C10_vault_lookup_fails {σ : Type} (c : Client σ) (cid : String) (req : Request) (s : σ)
    (o1 o2 o3 o4 : Object) (e : Err)
    (hget : lookups c
        [addonKey req, clusterVersionKey req, userParamsKey req, licenseKey req, vaultKey req] s
      = [.found o1, .found o2, .found o3, .found o4, .failed e]) :
    (run c cid req s).err ≠ none ∧
    (run c cid req s).result = { Requeue := false, RequeueAfter := 0 } ∧
    creates (run c cid req s).trace = [] ∧
    (run c cid req s).trace =
      [ .get (addonKey req) (.found o1), .get (clusterVersionKey req) (.found o2),
        .get (userParamsKey req) (.found o3), .get (licenseKey req) (.found o4),
        .get (vaultKey req) (.failed e) ] := by
  simp only [lookups, addonKey, clusterVersionKey, userParamsKey, licenseKey, vaultKey,
    List.cons.injEq, and_true] at hget
  obtain ⟨h1, h2, h3, h4, h5⟩ := hget
  cases hnf : IsNotFound e <;>
  simp [run, Reconcile, recording, h1, h2, h3, h4, h5, hnf, addonKey, clusterVersionKey,
    userParamsKey, licenseKey, vaultKey, creates]

/-- C10 at the store of the scenario after the license secret was created: the
"addon" secret is missing. -/
theorem C10_vault_lookup_fails_witness :
    lookups storeClient
        [addonKey sampleReq, clusterVersionKey sampleReq, userParamsKey sampleReq,
          licenseKey sampleReq, vaultKey sampleReq]
        ((bareStore sampleReq).put (DeployLicenseSecret "ABC123" "redhat-starburst-operator"))
      = [ .found (blank .Addon "redhat-starburst-operator" "starburst"),
          .found (blank .ClusterVersion "redhat-starburst-operator" "starburst"),
          .found (paramsSecret sampleReq "ABC123"),
          .found (DeployLicenseSecret "ABC123" "redhat-starburst-operator"),
          .failed (notFoundErr (vaultKey sampleReq)) ] ∧
    (run storeClient "cluster-1" sampleReq
        ((bareStore sampleReq).put
          (DeployLicenseSecret "ABC123" "redhat-starburst-operator"))).err ≠ none ∧
    (run storeClient "cluster-1" sampleReq
        ((bareStore sampleReq).put
          (DeployLicenseSecret "ABC123" "redhat-starburst-operator"))).result
      = { Requeue := false, RequeueAfter := 0 } :=
  have h := C10_vault_lookup_fails storeClient "cluster-1" sampleReq
    ((bareStore sampleReq).put (DeployLicenseSecret "ABC123" "redhat-starburst-operator"))
    (blank .Addon "redhat-starburst-operator" "starburst")
    (blank .ClusterVersion "redhat-starburst-operator" "starburst")
    (paramsSecret sampleReq "ABC123")
    (DeployLicenseSecret "ABC123" "redhat-starburst-operator")
    (notFoundErr (vaultKey sampleReq)) (by rfl)
  ⟨by rfl, h.1, h.2.1⟩

/-! ## C5: a failed create of the primary ServiceMonitor -/

/-- C5, as stated, fails: on a store where steps 1-6 succeed, the primary
ServiceMonitor is missing and its `Create` is denied, the pass ends with that
`Create`; the federation ServiceMonitor, the PrometheusRule (missing as well)
and the CronJob are neither looked up nor created. -/
theorem C5_counterexample :
    (run denyingClient "cluster-1" sampleReq (sixStore sampleReq)).trace =
      [ .get (addonKey sampleReq) (.found (blank .Addon "redhat-starburst-operator" "starburst")),
        .get (clusterVersionKey sampleReq)
          (.found (blank .ClusterVersion "redhat-starburst-operator" "starburst")),
        .get (userParamsKey sampleReq) (.found (paramsSecret sampleReq "ABC123")),
        .get (licenseKey sampleReq)
          (.found (DeployLicenseSecret "ABC123" "redhat-starburst-operator")),
        .get (vaultKey sampleReq)
          (.found (vaultSecret sampleReq "https://sso/token" "https://rw/receive")),
        .get prometheusKey
          (.found (DeployPrometheus "https://sso/token" "https://rw/receive" "cluster-1")),
        .get serviceMonitorKey (.failed (notFoundErr serviceMonitorKey)),
        .create DeployServiceMonitor (some deniedErr) ] ∧
    sixStore sampleReq prometheusRuleKey = none ∧
    ¬ (∃ call ∈ (run denyingClient "cluster-1" sampleReq (sixStore sampleReq)).trace,
        call.key = fedServiceMonitorKey ∨ call.key = prometheusRuleKey ∨
          call.key = cronJobKey) := by
  have h : (run denyingClient "cluster-1" sampleReq (sixStore sampleReq)).trace =
      [ .get (addonKey sampleReq) (.found (blank .Addon "redhat-starburst-operator" "starburst")),
        .get (clusterVersionKey sampleReq)
          (.found (blank .ClusterVersion "redhat-starburst-operator" "starburst")),
        .get (userParamsKey sampleReq) (.found (paramsSecret sampleReq "ABC123")),
        .get (licenseKey sampleReq)
          (.found (DeployLicenseSecret "ABC123" "redhat-starburst-operator")),
        .get (vaultKey sampleReq)
          (.found (vaultSecret sampleReq "https://sso/token" "https://rw/receive")),
        .get prometheusKey
          (.found (DeployPrometheus "https://sso/token" "https://rw/receive" "cluster-1")),
        .get serviceMonitorKey (.failed (notFoundErr serviceMonitorKey)),
        .create DeployServiceMonitor (some deniedErr) ] := by rfl
  refine ⟨h, by rfl, ?_⟩
  rw [h]
  decide

/-- C5 as amended: when steps 1-6 succeed (the Prometheus object exists), the
primary ServiceMonitor is missing and its `Create` fails, `Reconcile` ends the
pass there: it returns a requeue result with the create error, and the
federation ServiceMonitor, the PrometheusRule and the CronJob are neither
looked up nor created. -/
theorem C5_service_monitor_create_fails {σ : Type} (c : Client σ) (cid : String)
    (req : Request) (s : σ) (o1 o2 o3 o4 o5 o6 : Object) (e ce : Err)
    (hget : lookups c
        [addonKey req, clusterVersionKey req, userParamsKey req, licenseKey req, vaultKey req,
          prometheusKey, serviceMonitorKey] s
      = [.found o1, .found o2, .found o3, .found o4, .found o5, .found o6, .failed e])
    (hnf : IsNotFound e = true)
    (hcreate : (c.Create DeployServiceMonitor (stateAfter c
        [addonKey req, clusterVersionKey req, userParamsKey req, licenseKey req, vaultKey req,
          prometheusKey, serviceMonitorKey] s)).1 = some ce) :
    (run c cid req s).result = { Requeue := true, RequeueAfter := 0 } ∧
    (run c cid req s).err = some (Errorf "could not create service monitor: " ce) ∧
    (run c cid req s).trace =
      [ .get (addonKey req) (.found o1), .get (clusterVersionKey req) (.found o2),
        .get (userParamsKey req) (.found o3), .get (licenseKey req) (.found o4),
        .get (vaultKey req) (.found o5), .get prometheusKey (.found o6),
        .get serviceMonitorKey (.failed e), .create DeployServiceMonitor (some ce) ] := by
  simp only [lookups, addonKey, clusterVersionKey, userParamsKey, licenseKey, vaultKey,
    prometheusKey, serviceMonitorKey, List.cons.injEq, and_true] at hget
  obtain ⟨h1, h2, h3, h4, h5, h6, h7⟩ := hget
  simp only [stateAfter, addonKey, clusterVersionKey, userParamsKey, licenseKey, vaultKey,
    prometheusKey, serviceMonitorKey] at hcreate
  simp [run, Reconcile, recording, Flow.andThen, h1, h2, h3, h4, h5, h6, h7, hnf, hcreate,
    addonKey, clusterVersionKey, userParamsKey, licenseKey, vaultKey, prometheusKey,
    serviceMonitorKey]

/-- The amended C5 at the store where the create of the ServiceMonitor is denied. -/
theorem C5_service_monitor_create_fails_witness :
    lookups denyingClient
        [addonKey sampleReq, clusterVersionKey sampleReq, userParamsKey sampleReq,
          licenseKey sampleReq, vaultKey sampleReq, prometheusKey, serviceMonitorKey]
        (sixStore sampleReq)
      = [ .found (blank .Addon "redhat-starburst-operator" "starburst"),
          .found (blank .ClusterVersion "redhat-starburst-operator" "starburst"),
          .found (paramsSecret sampleReq "ABC123"),
          .found (DeployLicenseSecret "ABC123" "redhat-starburst-operator"),
          .found (vaultSecret sampleReq "https://sso/token" "https://rw/receive"),
          .found (DeployPrometheus "https://sso/token" "https://rw/receive" "cluster-1"),
          .failed (notFoundErr serviceMonitorKey) ] ∧
    IsNotFound (notFoundErr serviceMonitorKey) = true ∧
    (run denyingClient "cluster-1" sampleReq (sixStore sampleReq)).result
      = { Requeue := true, RequeueAfter := 0 } ∧
    (run denyingClient "cluster-1" sampleReq (sixStore sampleReq)).err
      = some (Errorf "could not create service monitor: " deniedErr) :=
  have h := C5_service_monitor_create_fails denyingClient "cluster-1" sampleReq
    (sixStore sampleReq)
    (blank .Addon "redhat-starburst-operator" "starburst")
    (blank .ClusterVersion "redhat-starburst-operator" "starburst")
    (paramsSecret sampleReq "ABC123")
    (DeployLicenseSecret "ABC123" "redhat-starburst-operator")
    (vaultSecret sampleReq "https://sso/token" "https://rw/receive")
    (DeployPrometheus "https://sso/token" "https://rw/receive" "cluster-1")
    (notFoundErr serviceMonitorKey) deniedErr (by rfl) (by rfl) (by rfl)
  ⟨by rfl, by rfl, h.1, h.2.1⟩

/-! ## C6: the four passes of the scenario -/

/-- C6, as stated, fails: from the store holding only the Addon, the
ClusterVersion and the user parameters, the first pass creates the license
secret, and the second pass then stops at the missing "addon" secret: it
issues no `Create` (no Prometheus object) and returns an error. -/
theorem C6_counterexample :
    creates (run storeClient "cluster-1" sampleReq (bareStore sampleReq)).trace
      = [DeployLicenseSecret "ABC123" "redhat-starburst-operator"] ∧
    creates (run storeClient "cluster-1" sampleReq
        (run storeClient "cluster-1" sampleReq (bareStore sampleReq)).state).trace = [] ∧
    (run storeClient "cluster-1" sampleReq
        (run storeClient "cluster-1" sampleReq (bareStore sampleReq)).state).err
      = some (notFoundErr (vaultKey sampleReq)) := by
  refine ⟨by rfl, by rfl, by rfl⟩

/-- First pass of the scenario: the license secret is created. -/
theorem scenario_pass1 (req : Request) (cid t w : String) :
    (run storeClient cid req (readyStore req t w)).state = licensedStore req t w ∧
    creates (run storeClient cid req (readyStore req t w)).trace
      = [DeployLicenseSecret "ABC123" req.Namespace] ∧
    (run storeClient cid req (readyStore req t w)).result
      = { Requeue := true, RequeueAfter := 0 } ∧
    (run storeClient cid req (readyStore req t w)).err = none := by
  simp [run, Reconcile, recording, Flow.andThen, storeClient, faultyClient, convergedStore, monitoredStore, licensedStore, readyStore, bareStore, pairStore, Store.ofList, Store.put, Store.empty, Object.key, blank, paramsSecret, vaultSecret, DeployLicenseSecret, kind_DeployPrometheus, meta_DeployPrometheus, kind_DeployServiceMonitor, meta_DeployServiceMonitor, kind_DeployFederationServiceMonitor, meta_DeployFederationServiceMonitor, kind_DeployPrometheusRules, meta_DeployPrometheusRules, kind_DeployCronJob, meta_DeployCronJob, Name, Namespace, creates, notFoundErr, IsNotFound, lookupData]

/-- Second pass of the scenario: the Prometheus object is created. -/
theorem scenario_pass2 (req : Request) (cid t w : String) :
    (run storeClient cid req (licensedStore req t w)).state = monitoredStore req t w cid ∧
    creates (run storeClient cid req (licensedStore req t w)).trace
      = [DeployPrometheus t w cid] ∧
    (run storeClient cid req (licensedStore req t w)).result
      = { Requeue := true, RequeueAfter := 0 } ∧
    (run storeClient cid req (licensedStore req t w)).err = none := by
  simp [run, Reconcile, recording, Flow.andThen, storeClient, faultyClient, convergedStore, monitoredStore, licensedStore, readyStore, bareStore, pairStore, Store.ofList, Store.put, Store.empty, Object.key, blank, paramsSecret, vaultSecret, DeployLicenseSecret, kind_DeployPrometheus, meta_DeployPrometheus, kind_DeployServiceMonitor, meta_DeployServiceMonitor, kind_DeployFederationServiceMonitor, meta_DeployFederationServiceMonitor, kind_DeployPrometheusRules, meta_DeployPrometheusRules, kind_DeployCronJob, meta_DeployCronJob, Name, Namespace, creates, notFoundErr, IsNotFound, lookupData]

/-- Third pass of the scenario: the four trailing resources are created. -/
theorem scenario_pass3 (req : Request) (cid t w : String) :
    (run storeClient cid req (monitoredStore req t w cid)).state = convergedStore req t w cid ∧
    creates (run storeClient cid req (monitoredStore req t w cid)).trace
      = [DeployServiceMonitor, DeployFederationServiceMonitor, DeployPrometheusRules,
          DeployCronJob] ∧
    (run storeClient cid req (monitoredStore req t w cid)).result
      = { Requeue := false, RequeueAfter := Minute } ∧
    (run storeClient cid req (monitoredStore req t w cid)).err = none := by
  simp [run, Reconcile, recording, Flow.andThen, storeClient, faultyClient, convergedStore, monitoredStore, licensedStore, readyStore, bareStore, pairStore, Store.ofList, Store.put, Store.empty, Object.key, blank, paramsSecret, vaultSecret, DeployLicenseSecret, kind_DeployPrometheus, meta_DeployPrometheus, kind_DeployServiceMonitor, meta_DeployServiceMonitor, kind_DeployFederationServiceMonitor, meta_DeployFederationServiceMonitor, kind_DeployPrometheusRules, meta_DeployPrometheusRules, kind_DeployCronJob, meta_DeployCronJob, Name, Namespace, creates, notFoundErr, IsNotFound, lookupData]

/-- Fourth pass of the scenario: nothing is left to create. -/
theorem scenario_pass4 (req : Request) (cid t w : String) :
    (run storeClient cid req (convergedStore req t w cid)).state = convergedStore req t w cid ∧
    creates (run storeClient cid req (convergedStore req t w cid)).trace = [] ∧
    (run storeClient cid req (convergedStore req t w cid)).result
      = { Requeue := false, RequeueAfter := Minute } ∧
    (run storeClient cid req (convergedStore req t w cid)).err = none := by
  simp [run, Reconcile, recording, Flow.andThen, storeClient, faultyClient, convergedStore, monitoredStore, licensedStore, readyStore, bareStore, pairStore, Store.ofList, Store.put, Store.empty, Object.key, blank, paramsSecret, vaultSecret, DeployLicenseSecret, kind_DeployPrometheus, meta_DeployPrometheus, kind_DeployServiceMonitor, meta_DeployServiceMonitor, kind_DeployFederationServiceMonitor, meta_DeployFederationServiceMonitor, kind_DeployPrometheusRules, meta_DeployPrometheusRules, kind_DeployCronJob, meta_DeployCronJob, Name, Namespace, creates, notFoundErr, IsNotFound, lookupData]

/-- C6 as amended: from a store holding only the watched Addon, the
ClusterVersion, the user parameters with license "ABC123" and the "addon"
secret, on a store without failures, four successive passes go as follows.
The first creates exactly the license secret and returns requeue with no error;
the second creates exactly the Prometheus object and returns requeue with no
error; the third creates exactly the ServiceMonitor, the federation
ServiceMonitor, the PrometheusRule and the CronJob and returns RequeueAfter of
one minute with no error; the fourth creates nothing and returns RequeueAfter of
one minute with no error. -/
theorem C6_scenario_with_addon_secret (req : Request) (cid t w : String) :
    (creates (run storeClient cid req
        (afterPasses storeClient cid req 0 (readyStore req t w))).trace
      = [DeployLicenseSecret "ABC123" req.Namespace] ∧
     (run storeClient cid req (afterPasses storeClient cid req 0 (readyStore req t w))).result
      = { Requeue := true, RequeueAfter := 0 } ∧
     (run storeClient cid req (afterPasses storeClient cid req 0 (readyStore req t w))).err
      = none) ∧
    (creates (run storeClient cid req
        (afterPasses storeClient cid req 1 (readyStore req t w))).trace
      = [DeployPrometheus t w cid] ∧
     (run storeClient cid req (afterPasses storeClient cid req 1 (readyStore req t w))).result
      = { Requeue := true, RequeueAfter := 0 } ∧
     (run storeClient cid req (afterPasses storeClient cid req 1 (readyStore req t w))).err
      = none) ∧
    (creates (run storeClient cid req
        (afterPasses storeClient cid req 2 (readyStore req t w))).trace
      = [DeployServiceMonitor, DeployFederationServiceMonitor, DeployPrometheusRules,
          DeployCronJob] ∧
     (run storeClient cid req (afterPasses storeClient cid req 2 (readyStore req t w))).result
      = { Requeue := false, RequeueAfter := Minute } ∧
     (run storeClient cid req (afterPasses storeClient cid req 2 (readyStore req t w))).err
      = none) ∧
    (creates (run storeClient cid req
        (afterPasses storeClient cid req 3 (readyStore req t w))).trace = [] ∧
     (run storeClient cid req (afterPasses storeClient cid req 3 (readyStore req t w))).result
      = { Requeue := false, RequeueAfter := Minute } ∧
     (run storeClient cid req (afterPasses storeClient cid req 3 (readyStore req t w))).err
      = none) ∧
    Minute = 60000000000 := by
  have p1 := scenario_pass1 req cid t w
  have p2 := scenario_pass2 req cid t w
  have p3 := scenario_pass3 req cid t w
  have p4 := scenario_pass4 req cid t w
  have s1 : afterPasses storeClient cid req 1 (readyStore req t w) = licensedStore req t w := by
    simp only [afterPasses, p1.1]
  have s2 : afterPasses storeClient cid req 2 (readyStore req t w)
      = monitoredStore req t w cid := by
    simp only [afterPasses, p1.1, p2.1]
  have s3 : afterPasses storeClient cid req 3 (readyStore req t w)
      = convergedStore req t w cid := by
    simp only [afterPasses, p1.1, p2.1, p3.1]
  rw [s1, s2, s3]
  exact ⟨p1.2, p2.2, p3.2, p4.2, by decide⟩

/-! ## C3: two passes in a row -/

/-- C3, as stated, fails: from the store holding the Addon, the ClusterVersion,
the user parameters and the "addon" secret, the first pass creates the license
secret and stops, and the pass that follows at once creates the Prometheus
object: the second invocation does issue a `Create`. -/
theorem C3_counterexample :
    creates (run storeClient "cluster-1" sampleReq
        (readyStore sampleReq "https://sso/token" "https://rw/receive")).trace
      = [DeployLicenseSecret "ABC123" "redhat-starburst-operator"] ∧
    creates (run storeClient "cluster-1" sampleReq
        (run storeClient "cluster-1" sampleReq
          (readyStore sampleReq "https://sso/token" "https://rw/receive")).state).trace
      = [DeployPrometheus "https://sso/token" "https://rw/receive" "cluster-1"] ∧
    creates (run storeClient "cluster-1" sampleReq
        (run storeClient "cluster-1" sampleReq
          (readyStore sampleReq "https://sso/token" "https://rw/receive")).state).trace
      ≠ [] := by
  have h : creates (run storeClient "cluster-1" sampleReq
        (run storeClient "cluster-1" sampleReq
          (readyStore sampleReq "https://sso/token" "https://rw/receive")).state).trace
      = [DeployPrometheus "https://sso/token" "https://rw/receive" "cluster-1"] := by rfl
  refine ⟨by rfl, h, ?_⟩
  rw [h]
  exact List.cons_ne_nil _ _

set_option maxHeartbeats 1000000 in
/-- C3 as amended: on a store without failures whose creates are visible to
later lookups and which nothing else changes, if the first of two successive
passes creates neither the license secret nor the Prometheus object (the two
creates after which a pass returns at once), then the second pass issues no
`Create`. -/
theorem C3_second_pass_creates_nothing (req : Request) (cid : String) (s : Store)
    (h : ∀ o ∈ creates (run storeClient cid req s).trace,
      o.key ≠ licenseKey req ∧ o.key ≠ prometheusKey) :
    creates (run storeClient cid req (run storeClient cid req s).state).trace = [] := by
  rcases h1 : s ⟨.Addon, req.Namespace, req.Name⟩ with _ | o1
  · simp [*, run, Reconcile, recording, Flow.andThen, storeClient, faultyClient, Store.put, Object.key, DeployLicenseSecret, kind_DeployPrometheus, meta_DeployPrometheus, kind_DeployServiceMonitor, meta_DeployServiceMonitor, kind_DeployFederationServiceMonitor, meta_DeployFederationServiceMonitor, kind_DeployPrometheusRules, meta_DeployPrometheusRules, kind_DeployCronJob, meta_DeployCronJob, Name, Namespace, creates, notFoundErr, IsNotFound, licenseKey, prometheusKey] at h ⊢
  rcases h2 : s ⟨.ClusterVersion, req.Namespace, req.Name⟩ with _ | o2
  · simp [*, run, Reconcile, recording, Flow.andThen, storeClient, faultyClient, Store.put, Object.key, DeployLicenseSecret, kind_DeployPrometheus, meta_DeployPrometheus, kind_DeployServiceMonitor, meta_DeployServiceMonitor, kind_DeployFederationServiceMonitor, meta_DeployFederationServiceMonitor, kind_DeployPrometheusRules, meta_DeployPrometheusRules, kind_DeployCronJob, meta_DeployCronJob, Name, Namespace, creates, notFoundErr, IsNotFound, licenseKey, prometheusKey] at h ⊢
  rcases h3 : s ⟨.Secret, req.Namespace, "addon-managed-starburst-parameters"⟩ with _ | o3
  · simp [*, run, Reconcile, recording, Flow.andThen, storeClient, faultyClient, Store.put, Object.key, DeployLicenseSecret, kind_DeployPrometheus, meta_DeployPrometheus, kind_DeployServiceMonitor, meta_DeployServiceMonitor, kind_DeployFederationServiceMonitor, meta_DeployFederationServiceMonitor, kind_DeployPrometheusRules, meta_DeployPrometheusRules, kind_DeployCronJob, meta_DeployCronJob, Name, Namespace, creates, notFoundErr, IsNotFound, licenseKey, prometheusKey] at h ⊢
  rcases h4 : s ⟨.Secret, req.Namespace, "starburst-license"⟩ with _ | o4
  · simp [*, run, Reconcile, recording, Flow.andThen, storeClient, faultyClient, Store.put, Object.key, DeployLicenseSecret, kind_DeployPrometheus, meta_DeployPrometheus, kind_DeployServiceMonitor, meta_DeployServiceMonitor, kind_DeployFederationServiceMonitor, meta_DeployFederationServiceMonitor, kind_DeployPrometheusRules, meta_DeployPrometheusRules, kind_DeployCronJob, meta_DeployCronJob, Name, Namespace, creates, notFoundErr, IsNotFound, licenseKey, prometheusKey] at h ⊢
  rcases h5 : s ⟨.Secret, req.Namespace, "addon"⟩ with _ | o5
  · simp [*, run, Reconcile, recording, Flow.andThen, storeClient, faultyClient, Store.put, Object.key, DeployLicenseSecret, kind_DeployPrometheus, meta_DeployPrometheus, kind_DeployServiceMonitor, meta_DeployServiceMonitor, kind_DeployFederationServiceMonitor, meta_DeployFederationServiceMonitor, kind_DeployPrometheusRules, meta_DeployPrometheusRules, kind_DeployCronJob, meta_DeployCronJob, Name, Namespace, creates, notFoundErr, IsNotFound, licenseKey, prometheusKey] at h ⊢
  rcases h6 : s ⟨.Prometheus, "redhat-starburst-operator", "starburst"⟩ with _ | o6
  · simp [*, run, Reconcile, recording, Flow.andThen, storeClient, faultyClient, Store.put, Object.key, DeployLicenseSecret, kind_DeployPrometheus, meta_DeployPrometheus, kind_DeployServiceMonitor, meta_DeployServiceMonitor, kind_DeployFederationServiceMonitor, meta_DeployFederationServiceMonitor, kind_DeployPrometheusRules, meta_DeployPrometheusRules, kind_DeployCronJob, meta_DeployCronJob, Name, Namespace, creates, notFoundErr, IsNotFound, licenseKey, prometheusKey] at h ⊢
  all_goals rcases h7 : s ⟨.ServiceMonitor, "redhat-starburst-operator", "starburst"⟩ with _ | o7
  all_goals rcases h8 : s ⟨.ServiceMonitor, "redhat-starburst-operator", "starburst-federation"⟩ with _ | o8
  all_goals rcases h9 : s ⟨.PrometheusRule, "redhat-starburst-operator", "starburst"⟩ with _ | o9
  all_goals rcases h10 : s ⟨.CronJob, "redhat-starburst-operator", "starburst"⟩ with _ | o10
  all_goals simp [*, run, Reconcile, recording, Flow.andThen, storeClient, faultyClient, Store.put, Object.key, DeployLicenseSecret, kind_DeployPrometheus, meta_DeployPrometheus, kind_DeployServiceMonitor, meta_DeployServiceMonitor, kind_DeployFederationServiceMonitor, meta_DeployFederationServiceMonitor, kind_DeployPrometheusRules, meta_DeployPrometheusRules, kind_DeployCronJob, meta_DeployCronJob, Name, Namespace, creates, notFoundErr, IsNotFound, licenseKey, prometheusKey] at h ⊢

/-- The amended C3 at the store with everything but the four trailing
resources: the first pass creates those four, the second nothing. -/
theorem C3_second_pass_creates_nothing_witness :
    (∀ o ∈ creates (run storeClient "cluster-1" sampleReq (sixStore sampleReq)).trace,
      o.key ≠ licenseKey sampleReq ∧ o.key ≠ prometheusKey) ∧
    creates (run storeClient "cluster-1" sampleReq (sixStore sampleReq)).trace
      = [DeployServiceMonitor, DeployFederationServiceMonitor, DeployPrometheusRules,
          DeployCronJob] ∧
    creates (run storeClient "cluster-1" sampleReq
      (run storeClient "cluster-1" sampleReq (sixStore sampleReq)).state).trace = [] :=
  have h1 : creates (run storeClient "cluster-1" sampleReq (sixStore sampleReq)).trace
      = [DeployServiceMonitor, DeployFederationServiceMonitor, DeployPrometheusRules,
          DeployCronJob] := by rfl
  have h2 : ∀ o ∈ creates (run storeClient "cluster-1" sampleReq (sixStore sampleReq)).trace,
      o.key ≠ licenseKey sampleReq ∧ o.key ≠ prometheusKey := by
    rw [h1]; decide
  ⟨h2, h1, C3_second_pass_creates_nothing sampleReq "cluster-1" (sixStore sampleReq) h2⟩

/-! ## C2: creates only, and only after a NotFound lookup -/

/-- A trace that passes `createsGuarded` has, directly before each `Create`, the
NotFound `Get` of the key created. -/
theorem createsGuarded_split :
    ∀ (tr : List Call) (prev : Option Call), createsGuarded prev tr →
      ∀ pre o res post, tr = pre ++ Call.create o res :: post →
        ∃ e, IsNotFound e = true ∧
          ((pre = [] ∧ prev = some (.get o.key (.failed e))) ∨
            ∃ pre', pre = pre' ++ [Call.get o.key (.failed e)]) := by
  intro tr
  induction tr with
  | nil => intro prev _ pre o res post h; simp at h
  | cons c t ih =>
    intro prev hg pre o res post h
    cases pre with
    | nil =>
      simp only [List.nil_append, List.cons.injEq] at h
      obtain ⟨rfl, rfl⟩ := h
      obtain ⟨e, he, hnf⟩ := hg.1
      exact ⟨e, hnf, Or.inl ⟨rfl, he⟩⟩
    | cons p pre2 =>
      simp only [List.cons_append, List.cons.injEq] at h
      obtain ⟨rfl, rfl⟩ := h
      obtain ⟨e, hnf, h' | ⟨pre', rfl⟩⟩ := ih (some c) hg.2 pre2 o res post rfl
      · obtain ⟨rfl, hc⟩ := h'
        injection hc with hc
        exact ⟨e, hnf, Or.inr ⟨[], by simp [hc]⟩⟩
      · exact ⟨e, hnf, Or.inr ⟨c :: pre', by simp⟩⟩

/-- Every shape of a pass only reads and creates. -/
theorem Shape.readOrCreate {req : Request} {cid : String} {out : Result × Option Err}
    {tr : List Call} (h : Shape req cid out tr) : ∀ call ∈ tr, call.isReadOrCreate = true := by
  cases h with
  | trailing o1 o2 o3 o4 o5 o6 tr out h =>
    intro call hc
    simp only [List.mem_cons] at hc
    rcases hc with rfl | rfl | rfl | rfl | rfl | rfl | hc
    all_goals first | rfl | exact TailShape.tail_readOrCreate _ _ _ h call hc
  | _ => simp [Call.isReadOrCreate]

/-- Every shape of a pass passes `createsGuarded`. -/
theorem Shape.guarded {req : Request} {cid : String} {out : Result × Option Err}
    {tr : List Call} (h : Shape req cid out tr) : createsGuarded none tr := by
  cases h with
  | trailing o1 o2 o3 o4 o5 o6 tr out h =>
    exact ⟨trivial, trivial, trivial, trivial, trivial, trivial,
      TailShape.tail_guarded _ _ _ tailSteps_keys h _⟩
  | licenseCreate o1 o2 up e hnf res =>
    exact ⟨trivial, trivial, trivial, trivial, ⟨e, rfl, hnf⟩, trivial⟩
  | prometheusCreate o1 o2 o3 o4 v e hnf res =>
    exact ⟨trivial, trivial, trivial, trivial, trivial, trivial, ⟨e, rfl, hnf⟩, trivial⟩
  | _ => simp [createsGuarded]

/-- The trailing keys differ from the six keys looked up before them. -/
theorem tailKeys_fresh (req : Request) :
    ∀ k ∈ tailKeys, k ≠ addonKey req ∧ k ≠ clusterVersionKey req ∧ k ≠ userParamsKey req ∧
      k ≠ licenseKey req ∧ k ≠ vaultKey req ∧ k ≠ prometheusKey := by
  intro k hk
  simp only [tailKeys, List.mem_cons, List.mem_singleton, List.not_mem_nil, or_false] at hk
  rcases hk with rfl | rfl | rfl | rfl <;>
  simp [serviceMonitorKey, fedServiceMonitorKey, prometheusRuleKey, cronJobKey, addonKey,
    clusterVersionKey, userParamsKey, licenseKey, vaultKey, prometheusKey]

/-- In every shape of a pass, no key whose `Get` succeeded is written. -/
theorem Shape.found_not_created {req : Request} {cid : String} {out : Result × Option Err}
    {tr : List Call} (h : Shape req cid out tr) :
    ∀ k o, Call.get k (.found o) ∈ tr → ∀ o' res, Call.create o' res ∈ tr → o'.key ≠ k := by
  cases h with
  | trailing o1 o2 o3 o4 o5 o6 tr out h =>
    intro k o hget o' res hcr
    have hcr' : Call.create o' res ∈ tr := by simpa using hcr
    have hin : o'.key ∈ tailKeys := by
      have := TailShape.tail_keys _ _ _ tailSteps_keys h _ hcr'
      rwa [tailSteps_map_fst] at this
    obtain ⟨f1, f2, f3, f4, f5, f6⟩ := tailKeys_fresh req _ hin
    simp only [List.mem_cons, Call.get.injEq] at hget
    rcases hget with ⟨rfl, -⟩ | ⟨rfl, -⟩ | ⟨rfl, -⟩ | ⟨rfl, -⟩ | ⟨rfl, -⟩ | ⟨rfl, -⟩ | hget
    · exact f1
    · exact f2
    · exact f3
    · exact f4
    · exact f5
    · exact f6
    · exact TailShape.tail_found_not_created _ _ _ tailSteps_keys
        (by rw [tailSteps_map_fst]; exact tailKeys_nodup) h k o hget o' res hcr'
  | licenseCreate o1 o2 up e hnf res0 =>
    intro k o hget o' res hcr
    simp only [List.mem_cons, List.mem_singleton, List.not_mem_nil, or_false, Call.create.injEq,
      false_or, reduceCtorEq] at hcr
    obtain ⟨rfl, -⟩ := hcr
    simp only [List.mem_cons, List.mem_singleton, List.not_mem_nil, or_false, Call.get.injEq,
      GetResult.found.injEq, reduceCtorEq, and_false, false_or] at hget
    rcases hget with ⟨rfl, -⟩ | ⟨rfl, -⟩ | ⟨rfl, -⟩ <;>
    simp [Object.key, DeployLicenseSecret, addonKey, clusterVersionKey, userParamsKey]
  | prometheusCreate o1 o2 o3 o4 v e hnf res0 =>
    intro k o hget o' res hcr
    simp only [List.mem_cons, List.mem_singleton, List.not_mem_nil, or_false, Call.create.injEq,
      false_or, reduceCtorEq] at hcr
    obtain ⟨rfl, -⟩ := hcr
    simp only [List.mem_cons, List.mem_singleton, List.not_mem_nil, or_false, Call.get.injEq,
      GetResult.found.injEq, reduceCtorEq, and_false, false_or] at hget
    rcases hget with ⟨rfl, -⟩ | ⟨rfl, -⟩ | ⟨rfl, -⟩ | ⟨rfl, -⟩ | ⟨rfl, -⟩ <;>
    simp [Object.key, kind_DeployPrometheus, addonKey, clusterVersionKey, userParamsKey,
      licenseKey, vaultKey]
  | _ =>
    intro k o _ o' res hcr
    simp at hcr

/-- C2: on every client (every pattern of store failures), from every world
state and for every request, `Reconcile` issues no `Update`, `Patch` or
`Delete`; every `Create` it issues comes directly after a `Get` of the key of
the created object that answered NotFound in the same pass; and a resource
whose `Get` succeeded in the pass is never written in it, whatever object the
`Get` returned. -/
theorem C2_creates_only_when_absent {σ : Type} (c : Client σ) (cid : String) (req : Request)
    (s : σ) :
    (∀ call ∈ (run c cid req s).trace, call.isReadOrCreate = true) ∧
    (∀ pre o res post, (run c cid req s).trace = pre ++ Call.create o res :: post →
      ∃ pre' e, pre = pre' ++ [Call.get o.key (.failed e)] ∧ IsNotFound e = true) ∧
    (∀ k o, Call.get k (.found o) ∈ (run c cid req s).trace →
      ∀ o' res, Call.create o' res ∈ (run c cid req s).trace → o'.key ≠ k) := by
  have hs := run_shape c cid req s
  refine ⟨hs.readOrCreate, ?_, hs.found_not_created⟩
  intro pre o res post htr
  obtain ⟨e, hnf, ⟨-, h⟩ | ⟨pre', h⟩⟩ := createsGuarded_split _ _ hs.guarded pre o res post htr
  · cases h
  · exact ⟨pre', e, h, hnf⟩

/-! ## C4: order of the lookups and creates -/

/-- A trace that passes `precededBy` has, before each call selected by `need`, a
call selected by `ok` (or one was seen before the trace). -/
theorem precededBy_split (need ok : Call → Bool) :
    ∀ (tr : List Call) (seen : Bool), precededBy need ok seen tr = true →
      ∀ pre c post, tr = pre ++ c :: post → need c = true →
        seen = true ∨ ∃ c' ∈ pre, ok c' = true := by
  intro tr
  induction tr with
  | nil => intro seen _ pre c post h; simp at h
  | cons a t ih =>
    intro seen hp pre c post h hneed
    simp only [precededBy, Bool.and_eq_true, Bool.or_eq_true, Bool.not_eq_true'] at hp
    cases pre with
    | nil =>
      simp only [List.nil_append, List.cons.injEq] at h
      obtain ⟨rfl, rfl⟩ := h
      rcases hp.1 with h1 | h1
      · rw [hneed] at h1; cases h1
      · exact Or.inl h1
    | cons p pre2 =>
      simp only [List.cons_append, List.cons.injEq] at h
      obtain ⟨rfl, rfl⟩ := h
      rcases ih _ hp.2 pre2 c post rfl hneed with h1 | ⟨c', hc', hok⟩
      · simp only [Bool.or_eq_true] at h1
        rcases h1 with h1 | h1
        · exact Or.inl h1
        · exact Or.inr ⟨a, List.mem_cons_self _ _, h1⟩
      · exact Or.inr ⟨c', List.mem_cons_of_mem _ hc', hok⟩

/-- Once a call selected by `ok` was seen, `precededBy` accepts every trace. -/
theorem precededBy_seen (need ok : Call → Bool) :
    ∀ tr : List Call, precededBy need ok true tr = true := by
  intro tr
  induction tr with
  | nil => rfl
  | cons a t ih => simp [precededBy, ih]

/-- A call selected by `isFoundGetOf k` is a successful `Get` of `k`. -/
theorem isFoundGetOf_eq {k : ObjectKey} {c : Call} (h : isFoundGetOf k c = true) :
    ∃ o, c = Call.get k (.found o) := by
  cases c with
  | get k' r =>
    cases r with
    | found o => exact ⟨o, by simp [isFoundGetOf] at h; rw [h]⟩
    | failed e => simp [isFoundGetOf] at h
  | _ => simp [isFoundGetOf] at h

/-- In every shape, a `Create` of the Prometheus object has the successful `Get`
of the license secret before it. -/
theorem Shape.license_first {req : Request} {cid : String} {out : Result × Option Err}
    {tr : List Call} (h : Shape req cid out tr) :
    precededBy (isCreateOf prometheusKey) (isFoundGetOf (licenseKey req)) false tr = true := by
  cases h with
  | trailing o1 o2 o3 o4 o5 o6 tr out h =>
    simp [precededBy, isCreateOf, isFoundGetOf, precededBy_seen]
  | _ =>
    simp [precededBy, isCreateOf, isFoundGetOf, Object.key, DeployLicenseSecret, prometheusKey,
      addonKey, clusterVersionKey, userParamsKey, licenseKey, vaultKey]

/-- In every shape, a call on a trailing resource has the successful `Get` of
the Prometheus object before it. -/
theorem Shape.prometheus_first {req : Request} {cid : String} {out : Result × Option Err}
    {tr : List Call} (h : Shape req cid out tr) :
    precededBy onTailKey (isFoundGetOf prometheusKey) false tr = true := by
  cases h with
  | trailing o1 o2 o3 o4 o5 o6 tr out h =>
    simp [precededBy, onTailKey, isFoundGetOf, precededBy_seen, Call.key, tailKeys,
      serviceMonitorKey, fedServiceMonitorKey, prometheusRuleKey, cronJobKey, prometheusKey,
      addonKey, clusterVersionKey, userParamsKey, licenseKey, vaultKey]
  | _ =>
    simp [precededBy, onTailKey, isFoundGetOf, Call.key, tailKeys, Object.key,
      DeployLicenseSecret, kind_DeployPrometheus,
      serviceMonitorKey, fedServiceMonitorKey, prometheusRuleKey, cronJobKey, prometheusKey,
      addonKey, clusterVersionKey, userParamsKey, licenseKey, vaultKey]

/-- In every shape, a failed `Get` of the license secret is followed by no call
on the "addon" secret, the Prometheus object or a trailing resource. -/
theorem Shape.stops_at_license {req : Request} {cid : String} {out : Result × Option Err}
    {tr : List Call} (h : Shape req cid out tr) :
    ∀ e, Call.get (licenseKey req) (.failed e) ∈ tr →
      ∀ call ∈ tr, call.key ≠ vaultKey req ∧ call.key ≠ prometheusKey ∧ call.key ∉ tailKeys := by
  cases h with
  | trailing o1 o2 o3 o4 o5 o6 tr out h =>
    intro e he
    have he' : Call.get (licenseKey req) (.failed e) ∈ tr := by
      simpa [addonKey, clusterVersionKey, userParamsKey, licenseKey, vaultKey, prometheusKey]
        using he
    have hin := TailShape.tail_keys _ _ _ tailSteps_keys h _ he'
    rw [tailSteps_map_fst] at hin
    exact absurd rfl (tailKeys_fresh req _ hin).2.2.2.1
  | _ =>
    intro e0 he
    simp [Call.key, tailKeys, Object.key, DeployLicenseSecret, kind_DeployPrometheus,
      serviceMonitorKey, fedServiceMonitorKey, prometheusRuleKey, cronJobKey, prometheusKey,
      addonKey, clusterVersionKey, userParamsKey, licenseKey, vaultKey] at he ⊢

/-- In every shape, a failed `Get` of the Prometheus object is followed by no
call on a trailing resource. -/
theorem Shape.stops_at_prometheus {req : Request} {cid : String} {out : Result × Option Err}
    {tr : List Call} (h : Shape req cid out tr) :
    ∀ e, Call.get prometheusKey (.failed e) ∈ tr → ∀ call ∈ tr, call.key ∉ tailKeys := by
  cases h with
  | trailing o1 o2 o3 o4 o5 o6 tr out h =>
    intro e he
    have he' : Call.get prometheusKey (.failed e) ∈ tr := by
      simpa [addonKey, clusterVersionKey, userParamsKey, licenseKey, vaultKey, prometheusKey]
        using he
    have hin := TailShape.tail_keys _ _ _ tailSteps_keys h _ he'
    rw [tailSteps_map_fst] at hin
    exact absurd rfl (tailKeys_fresh req _ hin).2.2.2.2.2
  | _ =>
    intro e0 he
    simp [Call.key, tailKeys, Object.key, DeployLicenseSecret, kind_DeployPrometheus,
      meta_DeployPrometheus,
      serviceMonitorKey, fedServiceMonitorKey, prometheusRuleKey, cronJobKey, prometheusKey,
      addonKey, clusterVersionKey, userParamsKey, licenseKey, vaultKey] at he ⊢

/-- C4: on every client, from every world state and for every request, within
one pass (1) a `Create` of the Prometheus object is issued only after the `Get`
of the "starburst-license" secret succeeded earlier in the pass; (2) a `Get` or
`Create` of either ServiceMonitor, of the PrometheusRule or of the CronJob is
issued only after the `Get` of the Prometheus object succeeded earlier in the
pass; (3) when the `Get` of the license secret fails (NotFound or otherwise)
the pass makes no call on the "addon" secret, the Prometheus object or a
trailing resource, and when the `Get` of the Prometheus object fails it makes no
call on a trailing resource. -/
theorem C4_dependency_order {σ : Type} (c : Client σ) (cid : String) (req : Request) (s : σ) :
    (∀ pre o res post, (run c cid req s).trace = pre ++ Call.create o res :: post →
      o.key = prometheusKey → ∃ l, Call.get (licenseKey req) (.found l) ∈ pre) ∧
    (∀ pre call post, (run c cid req s).trace = pre ++ call :: post →
      call.key ∈ tailKeys → ∃ p, Call.get prometheusKey (.found p) ∈ pre) ∧
    (∀ e, Call.get (licenseKey req) (.failed e) ∈ (run c cid req s).trace →
      ∀ call ∈ (run c cid req s).trace,
        call.key ≠ vaultKey req ∧ call.key ≠ prometheusKey ∧ call.key ∉ tailKeys) ∧
    (∀ e, Call.get prometheusKey (.failed e) ∈ (run c cid req s).trace →
      ∀ call ∈ (run c cid req s).trace, call.key ∉ tailKeys) := by
  have hs := run_shape c cid req s
  refine ⟨?_, ?_, hs.stops_at_license, hs.stops_at_prometheus⟩
  · intro pre o res post htr hkey
    rcases precededBy_split _ _ _ _ hs.license_first pre _ post htr
        (by simp [isCreateOf, hkey]) with h | ⟨c', hc', hok⟩
    · cases h
    · obtain ⟨l, rfl⟩ := isFoundGetOf_eq hok
      exact ⟨l, hc'⟩
  · intro pre call post htr hkey
    rcases precededBy_split _ _ _ _ hs.prometheus_first pre _ post htr
        (by simp [onTailKey, hkey]) with h | ⟨c', hc', hok⟩
    · cases h
    · obtain ⟨p, rfl⟩ := isFoundGetOf_eq hok
      exact ⟨p, hc'⟩

/-! ## C11: owner references of the created objects -/

/-- The objects created by trailing calls are manifests of the trailing steps. -/
theorem TailShape.tail_creates :
    ∀ (steps : List (ObjectKey × Object × String)) (tr : List Call) (out : Result × Option Err),
      TailShape steps tr out → ∀ o ∈ creates tr, o ∈ steps.map (fun st => st.2.1) := by
  intro steps
  induction steps with
  | nil => intro tr out h; simp only [TailShape] at h; simp [h.1, creates]
  | cons st rest ih =>
    obtain ⟨key, obj, msg⟩ := st
    intro tr out h
    simp only [TailShape] at h
    rcases h with ⟨o, tr', rfl, h⟩ | ⟨e, tr', -, rfl, h⟩ | ⟨e, tr', -, rfl, h⟩ | ⟨e, ce, -, rfl, -⟩
    · intro o' ho
      exact List.mem_cons_of_mem _ (ih tr' out h o' (by simpa [creates] using ho))
    · intro o' ho
      exact List.mem_cons_of_mem _ (ih tr' out h o' (by simpa [creates] using ho))
    · intro o' ho
      simp only [creates, List.mem_cons] at ho
      rcases ho with rfl | ho
      · exact List.mem_cons_self _ _
      · exact List.mem_cons_of_mem _ (ih tr' out h o' ho)
    · intro o' ho
      simp only [creates, List.mem_cons, List.not_mem_nil, or_false] at ho
      subst ho
      exact List.mem_cons_self _ _

/-- No manifest of the trailing steps carries an owner reference. -/
theorem tailSteps_unowned : ∀ o ∈ tailSteps.map (fun st => st.2.1), o.Meta.OwnerReferences = [] := by
  intro o ho
  simp only [tailSteps, List.map_cons, List.map_nil, List.mem_cons, List.mem_singleton,
    List.not_mem_nil, or_false] at ho
  rcases ho with rfl | rfl | rfl | rfl
  · rw [meta_DeployServiceMonitor]
  · rw [meta_DeployFederationServiceMonitor]
  · rw [meta_DeployPrometheusRules]
  · rw [meta_DeployCronJob]

/-- In every shape of a pass, the created objects carry no owner reference. -/
theorem Shape.creates_unowned {req : Request} {cid : String} {out : Result × Option Err}
    {tr : List Call} (h : Shape req cid out tr) :
    ∀ o ∈ creates tr, o.Meta.OwnerReferences = [] := by
  cases h with
  | trailing o1 o2 o3 o4 o5 o6 tr out h =>
    intro o ho
    exact tailSteps_unowned o (TailShape.tail_creates _ _ _ h o (by simpa [creates] using ho))
  | licenseCreate o1 o2 up e hnf res =>
    intro o ho
    simp only [creates, List.mem_cons, List.not_mem_nil, or_false] at ho
    subst ho
    rfl
  | prometheusCreate o1 o2 o3 o4 v e hnf res =>
    intro o ho
    simp only [creates, List.mem_cons, List.not_mem_nil, or_false] at ho
    subst ho
    rw [meta_DeployPrometheus]
  | _ => simp [creates]

/-- C11 fails on the code: on every client, from every world state and for every
request, every object that `Reconcile` passes to `Create` has an empty list of
owner references, so none names the watched Addon. -/
theorem C11_created_objects_carry_no_owner {σ : Type} (c : Client σ) (cid : String)
    (req : Request) (s : σ) :
    ∀ o ∈ creates (run c cid req s).trace,
      o.Meta.OwnerReferences = [] ∧ ownedByAddon req o = false := by
  intro o ho
  have h := (run_shape c cid req s).creates_unowned o ho
  exact ⟨h, by simp [ownedByAddon, h]⟩

/-- C11 at the store holding the Addon, the ClusterVersion, the user parameters
and the "addon" secret: the pass creates the license secret, of a kind that
`SetupWithManager` registers as owned, without any owner reference. -/
theorem C11_created_objects_carry_no_owner_witness :
    DeployLicenseSecret "ABC123" sampleReq.Namespace
      ∈ creates (run storeClient "cluster-1" sampleReq
          (readyStore sampleReq "https://sso/token" "https://rw/receive")).trace ∧
    (DeployLicenseSecret "ABC123" sampleReq.Namespace).kind ∈ SetupWithManager.Owns ∧
    (DeployLicenseSecret "ABC123" sampleReq.Namespace).Meta.OwnerReferences = [] ∧
    ownedByAddon sampleReq (DeployLicenseSecret "ABC123" sampleReq.Namespace) = false :=
  have hmem : DeployLicenseSecret "ABC123" sampleReq.Namespace
      ∈ creates (run storeClient "cluster-1" sampleReq
          (readyStore sampleReq "https://sso/token" "https://rw/receive")).trace := by
    rw [(scenario_pass1 sampleReq "cluster-1" "https://sso/token" "https://rw/receive").2.1]
    exact List.mem_singleton.mpr rfl
  ⟨hmem, by decide,
    C11_created_objects_carry_no_owner storeClient "cluster-1" sampleReq
      (readyStore sampleReq "https://sso/token" "https://rw/receive") _ hmem⟩

/-! ## C12: which store errors reach the caller -/

/-- A failed `Create` among the trailing calls ends them with an error. -/
theorem TailShape.tail_create_error :
    ∀ (steps : List (ObjectKey × Object × String)) (tr : List Call) (out : Result × Option Err),
      TailShape steps tr out → ∀ o ce, Call.create o (some ce) ∈ tr → out.2 ≠ none := by
  intro steps
  induction steps with
  | nil => intro tr out h; simp only [TailShape] at h; simp [h.1]
  | cons st rest ih =>
    obtain ⟨key, obj, msg⟩ := st
    intro tr out h
    simp only [TailShape] at h
    rcases h with ⟨o, tr', rfl, h⟩ | ⟨e, tr', -, rfl, h⟩ | ⟨e, tr', -, rfl, h⟩ |
      ⟨e, ce, -, rfl, rfl⟩
    · intro o' ce' hc
      exact ih tr' out h o' ce' (by simpa using hc)
    · intro o' ce' hc
      exact ih tr' out h o' ce' (by simpa using hc)
    · intro o' ce' hc
      exact ih tr' out h o' ce' (by simpa using hc)
    · intro o' ce' _
      simp

/-- In every shape of a pass, a failed `Create` and a failed `Get` of a resource
other than the four trailing ones (NotFound on the "addon" secret included)
come with a non-nil error; NotFound on one of the first three lookups does not. -/
theorem Shape.surfaces_errors {req : Request} {cid : String} {out : Result × Option Err}
    {tr : List Call} (h : Shape req cid out tr) :
    (∀ o ce, Call.create o (some ce) ∈ tr → out.2 ≠ none) ∧
    (∀ k e, Call.get k (.failed e) ∈ tr → IsNotFound e = false → k ∉ tailKeys →
      out.2 ≠ none) := by
  cases h with
  | trailing o1 o2 o3 o4 o5 o6 tr out h =>
    refine ⟨fun o ce hc => TailShape.tail_create_error _ _ _ h o ce (by simpa using hc), ?_⟩
    intro k e hg _ hk
    have hg' : Call.get k (.failed e) ∈ tr := by simpa using hg
    have hin := TailShape.tail_keys _ _ _ tailSteps_keys h _ hg'
    rw [tailSteps_map_fst] at hin
    exact absurd hin hk
  | licenseCreate o1 o2 up e hnf res =>
    refine ⟨?_, ?_⟩
    · intro o ce hc
      simp only [List.mem_cons, List.mem_singleton, List.not_mem_nil, or_false,
        Call.create.injEq, false_or, reduceCtorEq] at hc
      obtain ⟨-, rfl⟩ := hc
      simp [afterCreate]
    · intro k e' hg hnf' _
      simp only [List.mem_cons, List.mem_singleton, List.not_mem_nil, or_false, Call.get.injEq,
        GetResult.failed.injEq, reduceCtorEq, and_false, false_or] at hg
      obtain ⟨-, rfl⟩ := hg
      rw [hnf] at hnf'
      cases hnf'
  | prometheusCreate o1 o2 o3 o4 v e hnf res =>
    refine ⟨?_, ?_⟩
    · intro o ce hc
      simp only [List.mem_cons, List.mem_singleton, List.not_mem_nil, or_false,
        Call.create.injEq, false_or, reduceCtorEq] at hc
      obtain ⟨-, rfl⟩ := hc
      simp [afterCreate]
    · intro k e' hg hnf' _
      simp only [List.mem_cons, List.mem_singleton, List.not_mem_nil, or_false, Call.get.injEq,
        GetResult.failed.injEq, reduceCtorEq, and_false, false_or] at hg
      obtain ⟨-, rfl⟩ := hg
      rw [hnf] at hnf'
      cases hnf'
  | addonMissing e hnf | versionMissing _ e hnf | paramsMissing _ _ e hnf =>
    refine ⟨by simp, ?_⟩
    intro k e' hg hnf' _
    simp only [List.mem_cons, List.mem_singleton, List.not_mem_nil, or_false, Call.get.injEq,
      GetResult.failed.injEq, reduceCtorEq, and_false, false_or] at hg
    obtain ⟨-, rfl⟩ := hg
    rw [hnf] at hnf'
    cases hnf'
  | _ => exact ⟨by simp, by simp⟩

/-- The part of C12 that holds, on every client, from every world state and for
every request: when a `Create` fails, or a `Get` of a resource other than the
four trailing ones fails otherwise than NotFound, the pass returns a non-nil
error. -/
theorem errors_surface_outside_trailing_lookups {σ : Type} (c : Client σ) (cid : String)
    (req : Request) (s : σ) :
    (∀ o ce, Call.create o (some ce) ∈ (run c cid req s).trace → (run c cid req s).err ≠ none) ∧
    (∀ k e, Call.get k (.failed e) ∈ (run c cid req s).trace → IsNotFound e = false →
      k ∉ tailKeys → (run c cid req s).err ≠ none) :=
  (run_shape c cid req s).surfaces_errors

/-- C12 fails on the code: on a store that holds every object a pass looks up,
when the `Get` of one of the four trailing resources (ServiceMonitor, federation
ServiceMonitor, PrometheusRule, CronJob) fails with an error `e` other than
NotFound and nothing else fails, the pass issues that `Get`, returns a nil
error and the result RequeueAfter of one minute: the store error is dropped. -/
theorem C12_trailing_lookup_error_dropped (req : Request) (cid : String) (k : ObjectKey)
    (e : Err) (hk : k ∈ tailKeys) (he : IsNotFound e = false) :
    Call.get k (.failed e) ∈ (run (failingGetClient k e) cid req (fullStore req)).trace ∧
    (run (failingGetClient k e) cid req (fullStore req)).err = none ∧
    (run (failingGetClient k e) cid req (fullStore req)).result = { RequeueAfter := Minute } := by
  simp only [tailKeys, List.mem_cons, List.mem_singleton, List.not_mem_nil, or_false] at hk
  rcases hk with rfl | rfl | rfl | rfl <;>
  simp [run, Reconcile, recording, Flow.andThen, failingGetClient, faultyClient, fullStore,
    Store.ofList, Store.put, Store.empty, Object.key, blank, paramsSecret, vaultSecret,
    DeployLicenseSecret, kind_DeployPrometheus, meta_DeployPrometheus, kind_DeployServiceMonitor,
    meta_DeployServiceMonitor, kind_DeployFederationServiceMonitor,
    meta_DeployFederationServiceMonitor, kind_DeployPrometheusRules, meta_DeployPrometheusRules,
    kind_DeployCronJob, meta_DeployCronJob, Name, Namespace, serviceMonitorKey,
    fedServiceMonitorKey, prometheusRuleKey, cronJobKey, he]

/-- C12 at the failing input: the `Get` of the primary ServiceMonitor times out
on a store holding everything; the pass returns a nil error. -/
theorem C12_trailing_lookup_error_dropped_witness :
    serviceMonitorKey ∈ tailKeys ∧ IsNotFound timeoutErr = false ∧
    Call.get serviceMonitorKey (.failed timeoutErr)
      ∈ (run (failingGetClient serviceMonitorKey timeoutErr) "cluster-1" sampleReq
          (fullStore sampleReq)).trace ∧
    (run (failingGetClient serviceMonitorKey timeoutErr) "cluster-1" sampleReq
      (fullStore sampleReq)).err = none ∧
    (run (failingGetClient serviceMonitorKey timeoutErr) "cluster-1" sampleReq
      (fullStore sampleReq)).result = { RequeueAfter := Minute } :=
  ⟨by decide, rfl,
    C12_trailing_lookup_error_dropped sampleReq "cluster-1" serviceMonitorKey timeoutErr
      (by decide) rfl⟩

/-! ## C13: bounded convergence on a store without failures -/

/-- The creates of a trace in two parts. -/
theorem creates_append (a b : List Call) : creates (a ++ b) = creates a ++ creates b := by
  induction a with
  | nil => rfl
  | cons c t ih => cases c <;> simp [creates, ih]

theorem storeClient_Get_found {s : Store} {k : ObjectKey} {o : Object} (h : s k = some o) :
    storeClient.Get k s = (.found o, s) := by
  simp [storeClient, faultyClient, h]

theorem storeClient_Get_missing {s : Store} {k : ObjectKey} (h : s k = none) :
    storeClient.Get k s = (.failed (notFoundErr k), s) := by
  simp [storeClient, faultyClient, h]

theorem storeClient_Create_missing {s : Store} {o : Object} (h : s o.key = none) :
    storeClient.Create o s = (none, s.put o) := by
  simp [storeClient, faultyClient, h]

/-- A put under a free key keeps every object of the store. -/
theorem Store.put_keeps {s : Store} {o x : Object} {k : ObjectKey} (hfree : s o.key = none)
    (h : s k = some x) : s.put o k = some x := by
  have hne : k ≠ o.key := by
    rintro rfl
    rw [hfree] at h
    cases h
  simp [Store.put, hne, h]

/-- A put files the object under its key. -/
theorem Store.put_self (s : Store) (o : Object) : s.put o o.key = some o := by
  simp [Store.put]

theorem addMissing_of_missing {s : Store} {o : Object} (h : s o.key = none) :
    addMissing s o = s.put o := by
  simp [addMissing, h]

theorem addMissing_of_present {s : Store} {o : Object} (h : s o.key ≠ none) :
    addMissing s o = s := by
  cases h' : s o.key with
  | none => exact absurd h' h
  | some x => simp [addMissing, h']

/-- Adding a missing object keeps every object of the store. -/
theorem addMissing_keeps {s : Store} {x : Object} {k : ObjectKey} (o : Object)
    (h : s k = some x) : addMissing s o k = some x := by
  cases h' : s o.key with
  | none => rw [addMissing_of_missing h']; exact Store.put_keeps h' h
  | some y => rw [addMissing_of_present (by simp [h'])]; exact h

/-- After adding a missing object its key is taken. -/
theorem addMissing_present (s : Store) (o : Object) : addMissing s o o.key ≠ none := by
  cases h' : s o.key with
  | none => rw [addMissing_of_missing h', Store.put_self]; simp
  | some y => rw [addMissing_of_present (by simp [h'])]; simp [h']

theorem foldl_addMissing_keeps (os : List Object) :
    ∀ {s : Store} {x : Object} {k : ObjectKey}, s k = some x →
      os.foldl addMissing s k = some x := by
  induction os with
  | nil => intro s x k h; exact h
  | cons o t ih => intro s x k h; exact ih (addMissing_keeps o h)

theorem foldl_addMissing_present (os : List Object) :
    ∀ (s : Store) (k : ObjectKey), (s k ≠ none ∨ ∃ o ∈ os, o.key = k) →
      os.foldl addMissing s k ≠ none := by
  induction os with
  | nil =>
    intro s k h
    rcases h with h | ⟨o, ho, -⟩
    · exact h
    · cases ho
  | cons o t ih =>
    intro s k h
    refine ih (addMissing s o) k ?_
    rcases h with h | ⟨o', ho', rfl⟩
    · obtain ⟨x, hx⟩ := Option.ne_none_iff_exists'.mp h
      exact Or.inl (by rw [addMissing_keeps o hx]; simp)
    · rcases List.mem_cons.mp ho' with rfl | ho'
      · exact Or.inl (addMissing_present s _)
      · exact Or.inr ⟨o', ho', rfl⟩

theorem foldl_addMissing_of_present (os : List Object) :
    ∀ (s : Store), (∀ o ∈ os, s o.key ≠ none) → os.foldl addMissing s = s := by
  induction os with
  | nil => intro s _; rfl
  | cons o t ih =>
    intro s h
    simp only [List.foldl_cons]
    rw [addMissing_of_present (h o (List.mem_cons_self _ _))]
    exact ih s (fun o' ho' => h o' (List.mem_cons_of_mem _ ho'))

/-- A trailing statement on the store without failures, resource present. -/
theorem ensure_present {s : Store} {key : ObjectKey} {o : Object} (h : s key = some o)
    (obj : Object) (msg : String) (l : List Call) :
    ensure (recording storeClient) key obj msg (s, l)
      = .next (s, l ++ [Call.get key (.found o)]) := by
  simp [ensure, recording, storeClient_Get_found h]

/-- A trailing statement on the store without failures, resource missing. -/
theorem ensure_missing {s : Store} {obj : Object} (h : s obj.key = none)
    (msg : String) (l : List Call) :
    ensure (recording storeClient) obj.key obj msg (s, l)
      = .next (s.put obj,
          l ++ [Call.get obj.key (.failed (notFoundErr obj.key))] ++ [Call.create obj none]) := by
  simp [ensure, recording, storeClient_Get_missing h, storeClient_Create_missing h,
    notFoundErr, IsNotFound]

/-- The trailing loop on the store without failures: it ends with RequeueAfter
of one minute and a nil error, leaves the store with the missing manifests
added, and creates nothing when every resource is present. -/
theorem runTail_storeClient (steps : List (ObjectKey × Object × String))
    (hk : ∀ st ∈ steps, st.2.1.key = st.1) :
    ∀ (s : Store) (l : List Call),
      (runTail (recording storeClient) steps (s, l)).1 = ({ RequeueAfter := Minute }, none) ∧
      (runTail (recording storeClient) steps (s, l)).2.1
        = (steps.map (fun st => st.2.1)).foldl addMissing s ∧
      ((∀ st ∈ steps, s st.1 ≠ none) →
        creates (runTail (recording storeClient) steps (s, l)).2.2 = creates l) := by
  induction steps with
  | nil => intro s l; simp [runTail]
  | cons st rest ih =>
    obtain ⟨key, obj, msg⟩ := st
    have hobj : obj.key = key := hk (key, obj, msg) (List.mem_cons_self _ _)
    have hk' : ∀ st ∈ rest, st.2.1.key = st.1 := fun st hst => hk st (List.mem_cons_of_mem _ hst)
    subst hobj
    intro s l
    simp only [runTail, List.map_cons, List.foldl_cons]
    cases h : s obj.key with
    | none =>
      rw [ensure_missing h, Flow.next_andThen, addMissing_of_missing h]
      obtain ⟨i1, i2, -⟩ := ih hk' (s.put obj)
        (l ++ [Call.get obj.key (.failed (notFoundErr obj.key))] ++ [Call.create obj none])
      refine ⟨i1, i2, ?_⟩
      intro hall
      exact absurd h (hall _ (List.mem_cons_self _ _))
    | some o =>
      rw [ensure_present h, Flow.next_andThen, addMissing_of_present (by simp [h])]
      obtain ⟨i1, i2, i3⟩ := ih hk' s (l ++ [Call.get obj.key (.found o)])
      refine ⟨i1, i2, ?_⟩
      intro hall
      rw [i3 (fun st hst => hall st (List.mem_cons_of_mem _ hst)), creates_append]
      simp [creates]

/-- A pass on the store without failures that finds the first six resources
runs the trailing loop from the same store. -/
theorem Reconcile_storeClient_tail (cid : String) (req : Request) (s : Store)
    {o1 o2 o3 o4 o5 o6 : Object}
    (h1 : s (addonKey req) = some o1) (h2 : s (clusterVersionKey req) = some o2)
    (h3 : s (userParamsKey req) = some o3) (h4 : s (licenseKey req) = some o4)
    (h5 : s (vaultKey req) = some o5) (h6 : s prometheusKey = some o6) :
    Reconcile (recording storeClient) cid req (s, [])
      = runTail (recording storeClient) tailSteps
          (s, [Call.get (addonKey req) (.found o1), Call.get (clusterVersionKey req) (.found o2),
            Call.get (userParamsKey req) (.found o3), Call.get (licenseKey req) (.found o4),
            Call.get (vaultKey req) (.found o5), Call.get prometheusKey (.found o6)]) := by
  simp only [addonKey, clusterVersionKey, userParamsKey, licenseKey, vaultKey, prometheusKey]
    at h1 h2 h3 h4 h5 h6 ⊢
  simp only [Reconcile, recording, storeClient_Get_found h1, storeClient_Get_found h2,
    storeClient_Get_found h3, storeClient_Get_found h4, storeClient_Get_found h5,
    storeClient_Get_found h6, List.nil_append, List.cons_append]
  rfl

/-- A pass that finds the license secret missing files it and ends. -/
theorem pass_license_missing (cid : String) (req : Request) (s : Store) {o1 o2 o3 : Object}
    (h1 : s (addonKey req) = some o1) (h2 : s (clusterVersionKey req) = some o2)
    (h3 : s (userParamsKey req) = some o3) (h4 : s (licenseKey req) = none) :
    (run storeClient cid req s).state
      = s.put (DeployLicenseSecret (lookupData o3.Data "starburst-license") req.Namespace) := by
  have hc : s (DeployLicenseSecret (lookupData o3.Data "starburst-license") req.Namespace).key
      = none := h4
  simp only [addonKey, clusterVersionKey, userParamsKey, licenseKey] at h1 h2 h3 h4
  simp [run, Reconcile, recording, storeClient_Get_found h1, storeClient_Get_found h2,
    storeClient_Get_found h3, storeClient_Get_missing h4, storeClient_Create_missing hc,
    notFoundErr, IsNotFound]

/-- A pass that finds the Prometheus object missing files it and ends. -/
theorem pass_prometheus_missing (cid : String) (req : Request) (s : Store)
    {o1 o2 o3 o4 o5 : Object}
    (h1 : s (addonKey req) = some o1) (h2 : s (clusterVersionKey req) = some o2)
    (h3 : s (userParamsKey req) = some o3) (h4 : s (licenseKey req) = some o4)
    (h5 : s (vaultKey req) = some o5) (h6 : s prometheusKey = none) :
    (run storeClient cid req s).state
      = s.put (DeployPrometheus (lookupData o5.Data "token-url")
          (lookupData o5.Data "remote-write-url") cid) := by
  have hc : s (DeployPrometheus (lookupData o5.Data "token-url")
      (lookupData o5.Data "remote-write-url") cid).key = none := h6
  simp only [addonKey, clusterVersionKey, userParamsKey, licenseKey, vaultKey, prometheusKey]
    at h1 h2 h3 h4 h5 h6
  simp [run, Reconcile, recording, storeClient_Get_found h1, storeClient_Get_found h2,
    storeClient_Get_found h3, storeClient_Get_found h4, storeClient_Get_found h5,
    storeClient_Get_missing h6, storeClient_Create_missing hc, notFoundErr, IsNotFound]

/-- A pass that finds the first six resources adds the missing trailing
manifests, and returns RequeueAfter of one minute with a nil error. -/
theorem pass_trailing (cid : String) (req : Request) (s : Store) {o1 o2 o3 o4 o5 o6 : Object}
    (h1 : s (addonKey req) = some o1) (h2 : s (clusterVersionKey req) = some o2)
    (h3 : s (userParamsKey req) = some o3) (h4 : s (licenseKey req) = some o4)
    (h5 : s (vaultKey req) = some o5) (h6 : s prometheusKey = some o6) :
    (run storeClient cid req s).state
      = (tailSteps.map (fun st => st.2.1)).foldl addMissing s ∧
    (run storeClient cid req s).result = { RequeueAfter := Minute } ∧
    (run storeClient cid req s).err = none ∧
    ((∀ k ∈ tailKeys, s k ≠ none) → creates (run storeClient cid req s).trace = []) := by
  have hr := Reconcile_storeClient_tail cid req s h1 h2 h3 h4 h5 h6
  obtain ⟨i1, i2, i3⟩ := runTail_storeClient tailSteps tailSteps_keys s
    [Call.get (addonKey req) (.found o1), Call.get (clusterVersionKey req) (.found o2),
      Call.get (userParamsKey req) (.found o3), Call.get (licenseKey req) (.found o4),
      Call.get (vaultKey req) (.found o5), Call.get prometheusKey (.found o6)]
  rw [← hr] at i1 i2 i3
  refine ⟨i2, ?_, ?_, ?_⟩
  · exact congrArg Prod.fst i1
  · exact congrArg Prod.snd i1
  · intro hall
    have := i3 (fun st hst => hall st.1 (by
      rw [← tailSteps_map_fst]; exact List.mem_map_of_mem _ hst))
    simpa [creates] using this

/-- On the store without failures, the state after a pass is the state before
with some objects added under keys that were free. -/
theorem pass_state_adds (cid : String) (req : Request) (s : Store) :
    ∃ os : List Object, (run storeClient cid req s).state = os.foldl addMissing s := by
  cases h1 : s (addonKey req) with
  | none =>
    simp only [addonKey] at h1
    exact ⟨[], by simp [run, Reconcile, recording, storeClient_Get_missing h1, notFoundErr,
      IsNotFound]⟩
  | some o1 =>
  cases h2 : s (clusterVersionKey req) with
  | none =>
    simp only [addonKey, clusterVersionKey] at h1 h2
    exact ⟨[], by simp [run, Reconcile, recording, storeClient_Get_found h1,
      storeClient_Get_missing h2, notFoundErr, IsNotFound]⟩
  | some o2 =>
  cases h3 : s (userParamsKey req) with
  | none =>
    simp only [addonKey, clusterVersionKey, userParamsKey] at h1 h2 h3
    exact ⟨[], by simp [run, Reconcile, recording, storeClient_Get_found h1,
      storeClient_Get_found h2, storeClient_Get_missing h3, notFoundErr, IsNotFound]⟩
  | some o3 =>
  cases h4 : s (licenseKey req) with
  | none =>
    refine ⟨[DeployLicenseSecret (lookupData o3.Data "starburst-license") req.Namespace], ?_⟩
    rw [pass_license_missing cid req s h1 h2 h3 h4]
    exact (addMissing_of_missing h4).symm
  | some o4 =>
  cases h5 : s (vaultKey req) with
  | none =>
    simp only [addonKey, clusterVersionKey, userParamsKey, licenseKey, vaultKey] at h1 h2 h3 h4 h5
    exact ⟨[], by simp [run, Reconcile, recording, storeClient_Get_found h1,
      storeClient_Get_found h2, storeClient_Get_found h3, storeClient_Get_found h4,
      storeClient_Get_missing h5, notFoundErr, IsNotFound]⟩
  | some o5 =>
  cases h6 : s prometheusKey with
  | none =>
    refine ⟨[DeployPrometheus (lookupData o5.Data "token-url")
      (lookupData o5.Data "remote-write-url") cid], ?_⟩
    rw [pass_prometheus_missing cid req s h1 h2 h3 h4 h5 h6]
    exact (addMissing_of_missing h6).symm
  | some o6 => exact ⟨_, (pass_trailing cid req s h1 h2 h3 h4 h5 h6).1⟩

/-- A pass on the store without failures keeps every object of the store. -/
theorem pass_keeps (cid : String) (req : Request) (s : Store) {k : ObjectKey} {x : Object}
    (h : s k = some x) : (run storeClient cid req s).state k = some x := by
  obtain ⟨os, hos⟩ := pass_state_adds cid req s
  rw [hos]
  exact foldl_addMissing_keeps os h

/-- A pass on the store without failures keeps every key taken. -/
theorem pass_keeps_present (cid : String) (req : Request) (s : Store) {k : ObjectKey}
    (h : s k ≠ none) : (run storeClient cid req s).state k ≠ none := by
  obtain ⟨x, hx⟩ := Option.ne_none_iff_exists'.mp h
  rw [pass_keeps cid req s hx]
  simp

/-- A pass from a settled store changes nothing, creates nothing and returns
RequeueAfter of one minute with a nil error. -/
theorem pass_settled (cid : String) (req : Request) (s : Store) (hs : settled req s) :
    (run storeClient cid req s).state = s ∧
    creates (run storeClient cid req s).trace = [] ∧
    (run storeClient cid req s).result = { RequeueAfter := Minute } ∧
    (run storeClient cid req s).err = none := by
  obtain ⟨o1, h1⟩ := Option.ne_none_iff_exists'.mp (hs (addonKey req) (by simp [passKeys]))
  obtain ⟨o2, h2⟩ := Option.ne_none_iff_exists'.mp (hs (clusterVersionKey req) (by simp [passKeys]))
  obtain ⟨o3, h3⟩ := Option.ne_none_iff_exists'.mp (hs (userParamsKey req) (by simp [passKeys]))
  obtain ⟨o4, h4⟩ := Option.ne_none_iff_exists'.mp (hs (licenseKey req) (by simp [passKeys]))
  obtain ⟨o5, h5⟩ := Option.ne_none_iff_exists'.mp (hs (vaultKey req) (by simp [passKeys]))
  obtain ⟨o6, h6⟩ := Option.ne_none_iff_exists'.mp (hs prometheusKey (by simp [passKeys]))
  have htail : ∀ k ∈ tailKeys, s k ≠ none := by
    intro k hk
    refine hs k ?_
    simp only [tailKeys, List.mem_cons, List.mem_singleton, List.not_mem_nil, or_false] at hk
    rcases hk with rfl | rfl | rfl | rfl <;> simp [passKeys]
  obtain ⟨p1, p2, p3, p4⟩ := pass_trailing cid req s h1 h2 h3 h4 h5 h6
  refine ⟨?_, p4 htail, p2, p3⟩
  rw [p1]
  refine foldl_addMissing_of_present _ s ?_
  intro o ho
  obtain ⟨st, hst, rfl⟩ := List.mem_map.mp ho
  rw [tailSteps_keys st hst]
  exact htail _ (by rw [← tailSteps_map_fst]; exact List.mem_map_of_mem _ hst)

/-- One pass from a store holding the first six resources settles it. -/
theorem reach_one (cid : String) (req : Request) (s : Store)
    (hA : s (addonKey req) ≠ none) (hV : s (clusterVersionKey req) ≠ none)
    (hU : s (userParamsKey req) ≠ none) (hS : s (vaultKey req) ≠ none)
    (hL : s (licenseKey req) ≠ none) (hP : s prometheusKey ≠ none) :
    settled req (run storeClient cid req s).state := by
  obtain ⟨o1, h1⟩ := Option.ne_none_iff_exists'.mp hA
  obtain ⟨o2, h2⟩ := Option.ne_none_iff_exists'.mp hV
  obtain ⟨o3, h3⟩ := Option.ne_none_iff_exists'.mp hU
  obtain ⟨o4, h4⟩ := Option.ne_none_iff_exists'.mp hL
  obtain ⟨o5, h5⟩ := Option.ne_none_iff_exists'.mp hS
  obtain ⟨o6, h6⟩ := Option.ne_none_iff_exists'.mp hP
  rw [(pass_trailing cid req s h1 h2 h3 h4 h5 h6).1]
  intro k hk
  refine foldl_addMissing_present _ s k ?_
  simp only [passKeys, List.mem_cons, List.mem_singleton, List.not_mem_nil, or_false] at hk
  rcases hk with rfl | rfl | rfl | rfl | rfl | rfl | rfl | rfl | rfl | rfl
  · exact Or.inl hA
  · exact Or.inl hV
  · exact Or.inl hU
  · exact Or.inl hL
  · exact Or.inl hS
  · exact Or.inl hP
  · exact Or.inr ⟨DeployServiceMonitor, by simp [tailSteps], rfl⟩
  · exact Or.inr ⟨DeployFederationServiceMonitor, by simp [tailSteps], rfl⟩
  · exact Or.inr ⟨DeployPrometheusRules, by simp [tailSteps], rfl⟩
  · exact Or.inr ⟨DeployCronJob, by simp [tailSteps], rfl⟩

/-- Two passes from a store holding the first five resources settle it. -/
theorem reach_two (cid : String) (req : Request) (s : Store)
    (hA : s (addonKey req) ≠ none) (hV : s (clusterVersionKey req) ≠ none)
    (hU : s (userParamsKey req) ≠ none) (hS : s (vaultKey req) ≠ none)
    (hL : s (licenseKey req) ≠ none) :
    settled req (run storeClient cid req (run storeClient cid req s).state).state := by
  cases h6 : s prometheusKey with
  | none =>
    obtain ⟨o1, h1⟩ := Option.ne_none_iff_exists'.mp hA
    obtain ⟨o2, h2⟩ := Option.ne_none_iff_exists'.mp hV
    obtain ⟨o3, h3⟩ := Option.ne_none_iff_exists'.mp hU
    obtain ⟨o4, h4⟩ := Option.ne_none_iff_exists'.mp hL
    obtain ⟨o5, h5⟩ := Option.ne_none_iff_exists'.mp hS
    refine reach_one cid req _ (pass_keeps_present cid req s hA)
      (pass_keeps_present cid req s hV) (pass_keeps_present cid req s hU)
      (pass_keeps_present cid req s hS) (pass_keeps_present cid req s hL) ?_
    rw [pass_prometheus_missing cid req s h1 h2 h3 h4 h5 h6]
    have := Store.put_self s (DeployPrometheus (lookupData o5.Data "token-url")
      (lookupData o5.Data "remote-write-url") cid)
    intro hn
    rw [show prometheusKey = (DeployPrometheus (lookupData o5.Data "token-url")
      (lookupData o5.Data "remote-write-url") cid).key from rfl, this] at hn
    cases hn
  | some o6 =>
    have hs := reach_one cid req s hA hV hU hS hL (by simp [h6])
    rw [(pass_settled cid req _ hs).1]
    exact hs

/-- Three passes from a store holding the Addon, the ClusterVersion, the user
parameters and the "addon" secret settle it. -/
theorem reach_three (cid : String) (req : Request) (s : Store)
    (hA : s (addonKey req) ≠ none) (hV : s (clusterVersionKey req) ≠ none)
    (hU : s (userParamsKey req) ≠ none) (hS : s (vaultKey req) ≠ none) :
    settled req (run storeClient cid req (run storeClient cid req
      (run storeClient cid req s).state).state).state := by
  cases h4 : s (licenseKey req) with
  | none =>
    obtain ⟨o1, h1⟩ := Option.ne_none_iff_exists'.mp hA
    obtain ⟨o2, h2⟩ := Option.ne_none_iff_exists'.mp hV
    obtain ⟨o3, h3⟩ := Option.ne_none_iff_exists'.mp hU
    refine reach_two cid req _ (pass_keeps_present cid req s hA)
      (pass_keeps_present cid req s hV) (pass_keeps_present cid req s hU)
      (pass_keeps_present cid req s hS) ?_
    rw [pass_license_missing cid req s h1 h2 h3 h4]
    have := Store.put_self s
      (DeployLicenseSecret (lookupData o3.Data "starburst-license") req.Namespace)
    intro hn
    rw [show licenseKey req = (DeployLicenseSecret (lookupData o3.Data "starburst-license")
      req.Namespace).key from rfl, this] at hn
    cases hn
  | some o4 =>
    have hs := reach_two cid req s hA hV hU hS (by simp [h4])
    rw [(pass_settled cid req _ hs).1]
    exact hs

/-- Further passes from a settled store leave it as it is. -/
theorem afterPasses_settled (cid : String) (req : Request) (n : Nat) (s : Store)
    (hs : settled req s) : afterPasses storeClient cid req n s = s := by
  induction n with
  | zero => rfl
  | succ n ih => simp only [afterPasses, (pass_settled cid req s hs).1, ih]

/-- Passes compose: `n` passes after `m` passes are `n + m` passes. -/
theorem afterPasses_add {σ : Type} (c : Client σ) (cid : String) (req : Request) (n : Nat) :
    ∀ (m : Nat) (s : σ),
      afterPasses c cid req (n + m) s = afterPasses c cid req n (afterPasses c cid req m s) := by
  intro m
  induction m with
  | zero => intro s; rfl
  | succ m ih =>
    intro s
    show afterPasses c cid req (n + m + 1) s = _
    simp only [afterPasses]
    exact ih _

/-- C13: on the store without failures, whose creates are visible to later
lookups and which nothing else changes, from every state that holds the Addon,
the ClusterVersion, the user parameters and the "addon" secret (and any of the
six dependents), for every request (whatever its namespace): after three
successive passes all six dependents are present; every pass keeps every object
the store held before it; and from the third pass on every further pass
creates nothing, returns RequeueAfter of one minute with a nil error and
leaves the store, which holds the six dependents, unchanged. -/
theorem C13_bounded_convergence (req : Request) (cid : String) (s : Store)
    (hA : s (addonKey req) ≠ none) (hV : s (clusterVersionKey req) ≠ none)
    (hU : s (userParamsKey req) ≠ none) (hS : s (vaultKey req) ≠ none) :
    (∀ k ∈ dependentKeys req, afterPasses storeClient cid req 3 s k ≠ none) ∧
    (∀ n k o, afterPasses storeClient cid req n s k = some o →
      (run storeClient cid req (afterPasses storeClient cid req n s)).state k = some o) ∧
    (∀ n, 3 ≤ n →
      creates (run storeClient cid req (afterPasses storeClient cid req n s)).trace = [] ∧
      (run storeClient cid req (afterPasses storeClient cid req n s)).result
        = { RequeueAfter := Minute } ∧
      (run storeClient cid req (afterPasses storeClient cid req n s)).err = none ∧
      (run storeClient cid req (afterPasses storeClient cid req n s)).state
        = afterPasses storeClient cid req n s ∧
      ∀ k ∈ dependentKeys req, afterPasses storeClient cid req n s k ≠ none) := by
  have h3 : settled req (afterPasses storeClient cid req 3 s) := by
    simp only [afterPasses]
    exact reach_three cid req s hA hV hU hS
  have hdep : ∀ t : Store, settled req t → ∀ k ∈ dependentKeys req, t k ≠ none := by
    intro t ht k hk
    refine ht k ?_
    simp only [dependentKeys, List.mem_cons, List.mem_singleton, List.not_mem_nil, or_false] at hk
    rcases hk with rfl | rfl | rfl | rfl | rfl | rfl <;> simp [passKeys]
  refine ⟨hdep _ h3, fun n k o h => pass_keeps cid req _ h, ?_⟩
  intro n hn
  obtain ⟨m, rfl⟩ := Nat.exists_eq_add_of_le' hn
  rw [afterPasses_add, afterPasses_settled cid req m _ h3]
  obtain ⟨p1, p2, p3, p4⟩ := pass_settled cid req _ h3
  exact ⟨p2, p3, p4, p1, hdep _ h3⟩

/-- C13 at the store holding only the Addon, the ClusterVersion, the user
parameters and the "addon" secret, for the request in the fixed namespace;
there two passes are not enough: the ServiceMonitor is still missing. -/
theorem C13_bounded_convergence_witness :
    sampleReq.Namespace = Namespace ∧
    afterPasses storeClient "cluster-1" sampleReq 2
      (readyStore sampleReq "https://sso/token" "https://rw/receive") serviceMonitorKey = none ∧
    ((∀ k ∈ dependentKeys sampleReq,
        afterPasses storeClient "cluster-1" sampleReq 3
          (readyStore sampleReq "https://sso/token" "https://rw/receive") k ≠ none) ∧
      (∀ n k o,
        afterPasses storeClient "cluster-1" sampleReq n
          (readyStore sampleReq "https://sso/token" "https://rw/receive") k = some o →
        (run storeClient "cluster-1" sampleReq
          (afterPasses storeClient "cluster-1" sampleReq n
            (readyStore sampleReq "https://sso/token" "https://rw/receive"))).state k = some o) ∧
      (∀ n, 3 ≤ n →
        creates (run storeClient "cluster-1" sampleReq
          (afterPasses storeClient "cluster-1" sampleReq n
            (readyStore sampleReq "https://sso/token" "https://rw/receive"))).trace = [] ∧
        (run storeClient "cluster-1" sampleReq
          (afterPasses storeClient "cluster-1" sampleReq n
            (readyStore sampleReq "https://sso/token" "https://rw/receive"))).result
          = { RequeueAfter := Minute } ∧
        (run storeClient "cluster-1" sampleReq
          (afterPasses storeClient "cluster-1" sampleReq n
            (readyStore sampleReq "https://sso/token" "https://rw/receive"))).err = none ∧
        (run storeClient "cluster-1" sampleReq
          (afterPasses storeClient "cluster-1" sampleReq n
            (readyStore sampleReq "https://sso/token" "https://rw/receive"))).state
          = afterPasses storeClient "cluster-1" sampleReq n
              (readyStore sampleReq "https://sso/token" "https://rw/receive") ∧
        ∀ k ∈ dependentKeys sampleReq,
          afterPasses storeClient "cluster-1" sampleReq n
            (readyStore sampleReq "https://sso/token" "https://rw/receive") k ≠ none)) :=
  ⟨rfl, by rfl,
    C13_bounded_convergence sampleReq "cluster-1"
      (readyStore sampleReq "https://sso/token" "https://rw/receive")
      (by decide) (by decide) (by decide) (by decide)⟩

end StarburstAddon
